import Mathlib

/-!
Verification of the LangGraph lead-qualification workflow
(src/3_langgraph_orchestration): state merge policies, node functions,
routing functions, graph wiring, the wave scheduler with interrupts, the
file-backed pending-workflow store, and the HTTP handlers.

External collaborators (Salesforce, Marketo, OpenAI, Gmail, Slack, Sheets)
are modelled as an oracle of uninterpreted functions, as the specification
treats them as out-of-scope black boxes called through narrow interfaces.
-/

set_option maxRecDepth 4000

/-- A Python dict with keys `K` and values `V`, modelled extensionally as a
partial function (Python dict equality compares key sets and values). -/
def Dict (K V : Type) := K → Option V

/-- The empty dict `{}`. -/
def Dict.empty {K V : Type} : Dict K V := fun _ => none

/-- `d[k] = v` on a dict: the key `k` now maps to `v`, others unchanged. -/
def Dict.insert {K V : Type} [DecidableEq K] (k : K) (v : V) (d : Dict K V) : Dict K V :=
  fun q => if q = k then some v else d q

/-- `del d[k]` / `d.pop(k, None)`: the key `k` is removed. -/
def Dict.erase {K V : Type} [DecidableEq K] (k : K) (d : Dict K V) : Dict K V :=
  fun q => if q = k then none else d q

/-- The one-entry dict `{k: v}`. -/
def Dict.single {K V : Type} [DecidableEq K] (k : K) (v : V) : Dict K V :=
  Dict.insert k v Dict.empty

/-- `result = dict(current); result.update(update)`: keys of `update` win,
other keys keep their value from `current`. -/
def Dict.updateWith {K V : Type} (current update : Dict K V) : Dict K V :=
  fun k => match update k with
  | some v => some v
  | none => current k

/-- state.py `merge_research_results(current, update)`: the reducer for the
`research` and `tool_responses` channels.  `None` current counts as `{}`;
`None` update returns current unchanged; otherwise a key-wise union where
the update's keys win. -/
def merge_research_results {K V : Type} (current update : Option (Dict K V)) : Dict K V :=
  let c := current.getD Dict.empty
  match update with
  | none => c
  | some u => Dict.updateWith c u

/-- Two dicts have disjoint key sets. -/
def Dict.DisjointKeys {K V : Type} (d₁ d₂ : Dict K V) : Prop :=
  ∀ k, d₁ k = none ∨ d₂ k = none

/-! ## A model of Python values and their JSON serialization

slack_listener.py persists the pending-workflows dict with
`json.dump(workflows, f, indent=2, default=str)` and reads it back with
`json.load(f)`.  `PyVal` models the Python values stored (numbers as
integers; dict keys as strings, as in the workflow state), `JValue` models
the JSON documents `json` produces and parses.  A `pyobj` is a value with
no JSON representation, which `default=str` turns into its string form. -/

inductive PyVal where
  | pystr (s : String)
  | pyint (n : Int)
  | pybool (b : Bool)
  | pynone
  | pylist (xs : List PyVal)
  | pydict (es : List (String × PyVal))
  | pyobj (s : String)

inductive JValue where
  | jstr (s : String)
  | jnum (n : Int)
  | jbool (b : Bool)
  | jnull
  | jarr (xs : List JValue)
  | jobj (es : List (String × JValue))

mutual
/-- `json.dump(v, default=str)`: JSON-native values map structurally, and a
non-serializable object is replaced by its `str()` form. -/
def PyVal.toJson : PyVal → JValue
  | .pystr s => .jstr s
  | .pyint n => .jnum n
  | .pybool b => .jbool b
  | .pynone => .jnull
  | .pylist xs => .jarr (PyVal.toJsonList xs)
  | .pydict es => .jobj (PyVal.toJsonEntries es)
  | .pyobj s => .jstr s

def PyVal.toJsonList : List PyVal → List JValue
  | [] => []
  | v :: vs => v.toJson :: PyVal.toJsonList vs

def PyVal.toJsonEntries : List (String × PyVal) → List (String × JValue)
  | [] => []
  | (k, v) :: es => (k, v.toJson) :: PyVal.toJsonEntries es
end

mutual
/-- `json.load`: the Python value a parsed JSON document denotes. -/
def JValue.toPy : JValue → PyVal
  | .jstr s => .pystr s
  | .jnum n => .pyint n
  | .jbool b => .pybool b
  | .jnull => .pynone
  | .jarr xs => .pylist (JValue.toPyList xs)
  | .jobj es => .pydict (JValue.toPyEntries es)

def JValue.toPyList : List JValue → List PyVal
  | [] => []
  | v :: vs => v.toPy :: JValue.toPyList vs

def JValue.toPyEntries : List (String × JValue) → List (String × PyVal)
  | [] => []
  | (k, v) :: es => (k, v.toPy) :: JValue.toPyEntries es
end

mutual
/-- A Python value is JSON-native when `json.dump` represents it exactly:
strings, integers, booleans, `None`, and lists/dicts of such values. -/
def PyVal.jsonNative : PyVal → Bool
  | .pystr _ => true
  | .pyint _ => true
  | .pybool _ => true
  | .pynone => true
  | .pylist xs => PyVal.jsonNativeList xs
  | .pydict es => PyVal.jsonNativeEntries es
  | .pyobj _ => false

def PyVal.jsonNativeList : List PyVal → Bool
  | [] => true
  | v :: vs => v.jsonNative && PyVal.jsonNativeList vs

def PyVal.jsonNativeEntries : List (String × PyVal) → Bool
  | [] => true
  | (_, v) :: es => v.jsonNative && PyVal.jsonNativeEntries es
end

/-- Python dict assignment `d[k] = v` on an association list: replaces the
value in place when the key exists, appends otherwise. -/
def pyUpsert (k : String) (v : PyVal) : List (String × PyVal) → List (String × PyVal)
  | [] => [(k, v)]
  | (q, w) :: es => if q = k then (k, v) :: es else (q, w) :: pyUpsert k v es

/-! ## The pending-workflows file (slack_listener.py)

`_save_pending_workflows` serializes the in-memory workflows dict with
`json.dump(workflows, f, indent=2, default=str)`; `_load_pending_workflows`
parses the file with `json.load` and returns `{}` when the file does not
exist or cannot be decoded.  The file, when present, holds a JSON object
(that is the only shape `_save` ever writes). -/

namespace FileStore

/-- `_load_pending_workflows()`: parse the file; a missing file yields `{}`. -/
def _load_pending_workflows (file : Option (List (String × JValue))) : List (String × PyVal) :=
  match file with
  | none => []
  | some es => JValue.toPyEntries es

/-- `_save_pending_workflows(workflows)`: serialize and write the file. -/
def _save_pending_workflows (workflows : List (String × PyVal)) : Option (List (String × JValue)) :=
  some (PyVal.toJsonEntries workflows)

/-- `register_pending_workflow(channel, thread_ts, workflow_state, thread_id)`:
load the file, set `workflows[f"{channel}:{thread_ts}"]` to the entry
`{"state": workflow_state, "thread_id": thread_id}`, save the file. -/
def register_pending_workflow (file : Option (List (String × JValue)))
    (channel thread_ts : String) (workflow_state thread_id : PyVal) :
    Option (List (String × JValue)) :=
  let workflow_key := channel ++ ":" ++ thread_ts
  let workflows := _load_pending_workflows file
  _save_pending_workflows
    (pyUpsert workflow_key (.pydict [("state", workflow_state), ("thread_id", thread_id)]) workflows)

/-- `get_pending_workflow(channel, thread_ts)`: load the file and look the
key up. -/
def get_pending_workflow (file : Option (List (String × JValue)))
    (channel thread_ts : String) : Option PyVal :=
  (_load_pending_workflows file).lookup (channel ++ ":" ++ thread_ts)

end FileStore

/-! ## The workflow state (state.py)

Tool results are Python dicts; each is modelled as a structure holding the
fields the workflow reads.  Fields read through `dict.get` with a default
are `Option`-valued (mirroring keys that an AI response or an API response
may omit); string fields whose producers always supply them are plain
strings, with `""` standing for both the empty string and `None` (the two
are interchangeable under Python truthiness tests, which is the only way
the workflow inspects them). -/

structure LeadInfo where
  id : String := ""
  email : String := ""
  first_name : String := ""
  last_name : String := ""
  company_name : String := ""
  website : String := ""
  phone : String := ""
  sfdc_type : String := "Lead"
  sales_inquiry : String := ""
  revenue : String := ""
  industry : String := ""
  employees : String := ""
  deriving DecidableEq

/-- The `data` dict of a successful `lookup_crm_data` result (tools.py). -/
structure CrmData where
  id : String := ""
  email : String := ""
  first_name : String := ""
  last_name : String := ""
  phone : String := ""
  industry : String := ""
  employees : String := ""
  company : String := ""
  website : String := ""
  revenue : String := ""
  deriving DecidableEq

structure CrmResult where
  success : Bool
  data : CrmData := {}
  error : String := ""
  deriving DecidableEq

structure MarketoLookup where
  success : Bool
  marketo_lead_id : Nat := 0
  deriving DecidableEq

/-- A Marketo activity result; the default `{"success": False,
"activities": []}` of research_marketo_node carries no `activity_count`
key, hence the `Option`. Activity payloads are opaque to the workflow. -/
structure MarketoResult where
  success : Bool
  activities : List String := []
  activity_count : Option Nat := none
  deriving DecidableEq

structure WebResult where
  success : Bool
  research : String := ""
  error : String := ""
  deriving DecidableEq

structure InquiryAnalysis where
  category : Option String := none
  deriving DecidableEq

/-- The qualification dict: either from `qualify_lead_ai` (AI JSON that may
omit keys) or the literal spam verdict in qualify_lead_node. -/
structure QualificationResult where
  status : Option String := none
  reason : Option String := none
  deriving DecidableEq

structure GenResult where
  email_body : Option String := none
  deriving DecidableEq

structure ReviewResult where
  approved : Option Bool := none
  score : Option Int := none
  issues : Option (List String) := none
  suggestions : Option (List String) := none
  deriving DecidableEq

structure SlackResult where
  success : Bool
  channel : Option String := none
  thread_ts : Option String := none
  error : Option String := none
  deriving DecidableEq

structure InterpretResult where
  decision : Option String := none
  feedback : Option String := none
  reasoning : Option String := none
  deriving DecidableEq

structure GmailResult where
  success : Bool
  message_id : Option String := none
  deriving DecidableEq

structure SfdcResult where
  success : Bool
  error : Option String := none
  deriving DecidableEq

structure SheetsResult where
  success : Bool
  error : Option String := none
  deriving DecidableEq

/-- The values stored in the `research` dict, tagged by contributor. -/
inductive ResearchVal where
  | sfdc (r : CrmResult)
  | marketo (r : MarketoResult)
  | web (r : WebResult)
  | inquiry (r : InquiryAnalysis)
  deriving DecidableEq

/-- The values stored in the `tool_responses` dict. -/
inductive ToolResp where
  | gmail (r : GmailResult)
  | sfdc (r : SfdcResult)
  deriving DecidableEq

/-- state.py EmailDraft (TypedDict, total=False): every key optional. -/
structure EmailDraft where
  subject : Option String := none
  body : Option String := none
  body_html : Option String := none
  full_email : Option String := none
  version : Option Nat := none
  feedback_history : Option (List String) := none
  skipped : Option Bool := none
  deriving DecidableEq

/-- state.py HumanApproval (TypedDict, total=False): every key optional. -/
structure HumanApproval where
  requested : Option Bool := none
  slack_channel : Option String := none
  slack_thread_ts : Option String := none
  human_message : Option String := none
  status : Option String := none
  feedback : Option String := none
  reviewer : Option String := none
  ai_reasoning : Option String := none
  deriving DecidableEq

/-- state.py WorkflowState.  `create_initial_state` populates every field,
so the top-level fields are total; the defaults are its initial values. -/
structure WorkflowState where
  lead : LeadInfo := {}
  timestamp : String := ""
  research : Dict String ResearchVal := Dict.empty
  research_complete : Bool := false
  qualification : QualificationResult := {}
  email_draft : EmailDraft := {}
  email_review_count : Nat := 0
  email_approved_by_ai : Bool := false
  human_approval : HumanApproval := {}
  requires_human_approval : Bool := false
  email_sent : Bool := false
  salesforce_updated : Bool := false
  logged_to_sheets : Bool := false
  tool_responses : Dict String ToolResp := Dict.empty
  errors : List String := []
  current_node : String := "start"
  workflow_status : String := "running"

/-- state.py `create_initial_state(payload)`; the webhook payload is the
lead data, and the wall-clock timestamp is passed in. -/
def create_initial_state (payload : LeadInfo) (now : String) : WorkflowState :=
  { lead := payload
    timestamp := now
    research := Dict.empty
    research_complete := false
    qualification := {}
    email_draft := {}
    email_review_count := 0
    email_approved_by_ai := false
    human_approval := {}
    requires_human_approval := false
    email_sent := false
    salesforce_updated := false
    logged_to_sheets := false
    tool_responses := Dict.empty
    errors := []
    current_node := "start"
    workflow_status := "running" }

/-- A node's partial update: the sub-dict of state keys the node returns. -/
structure StateUpdate where
  lead : Option LeadInfo := none
  timestamp : Option String := none
  research : Option (Dict String ResearchVal) := none
  research_complete : Option Bool := none
  qualification : Option QualificationResult := none
  email_draft : Option EmailDraft := none
  email_review_count : Option Nat := none
  email_approved_by_ai : Option Bool := none
  human_approval : Option HumanApproval := none
  requires_human_approval : Option Bool := none
  email_sent : Option Bool := none
  salesforce_updated : Option Bool := none
  logged_to_sheets : Option Bool := none
  tool_responses : Option (Dict String ToolResp) := none
  errors : Option (List String) := none
  current_node : Option String := none
  workflow_status : Option String := none

/-- The engine applies a partial update channel-wise with the per-field
merge policy declared in state.py: `merge_research_results` for `research`
and `tool_responses` (`Annotated[dict, merge_research_results]`),
`operator.add` for `errors`, and replacement for every other field; a key
absent from the update leaves the field untouched. -/
def applyUpdate (st : WorkflowState) (u : StateUpdate) : WorkflowState :=
  { lead := u.lead.getD st.lead
    timestamp := u.timestamp.getD st.timestamp
    research := merge_research_results (some st.research) u.research
    research_complete := u.research_complete.getD st.research_complete
    qualification := u.qualification.getD st.qualification
    email_draft := u.email_draft.getD st.email_draft
    email_review_count := u.email_review_count.getD st.email_review_count
    email_approved_by_ai := u.email_approved_by_ai.getD st.email_approved_by_ai
    human_approval := u.human_approval.getD st.human_approval
    requires_human_approval := u.requires_human_approval.getD st.requires_human_approval
    email_sent := u.email_sent.getD st.email_sent
    salesforce_updated := u.salesforce_updated.getD st.salesforce_updated
    logged_to_sheets := u.logged_to_sheets.getD st.logged_to_sheets
    tool_responses := merge_research_results (some st.tool_responses) u.tool_responses
    errors := st.errors ++ u.errors.getD []
    current_node := u.current_node.getD st.current_node
    workflow_status := u.workflow_status.getD st.workflow_status }

/-- The external collaborators of tools.py (Salesforce, Marketo, OpenAI,
Gmail, Slack, Sheets), which the specification treats as out-of-scope
black boxes behind narrow task interfaces. -/
structure Oracle where
  lookup_crm_data : String → String → CrmResult
  lookup_marketo_lead : String → MarketoLookup
  get_marketo_activity : String → Nat → MarketoResult
  research_company_web : String → String → WebResult
  analyze_inquiry : String → InquiryAnalysis
  qualify_lead_ai : String → String → String → String → String → QualificationResult
  generate_email : String → String → String → String → String → String → GenResult
  review_email_quality : String → String → String → ReviewResult
  send_slack_approval_request : String → String → String → String → String → SlackResult
  interpret_human_intent : String → String → String → InterpretResult
  send_email : String → String → String → GmailResult
  log_salesforce_task : String → String → String → SfdcResult
  update_salesforce_status : String → String → String → SfdcResult
  log_to_sheets : WorkflowState → SheetsResult

/-! ## Node functions (nodes.py)

Each node takes a state snapshot and returns its partial update, calling
external collaborators through the oracle.  Console printing is a side
effect outside the embedding. -/

/-- The Salesforce lookup of research_salesforce_node: an error result when
the lead has no Salesforce ID, otherwise `lookup_crm_data`. -/
def salesforceResult (o : Oracle) (st : WorkflowState) : CrmResult :=
  if st.lead.id = "" then { success := false, error := "No Salesforce ID provided" }
  else o.lookup_crm_data st.lead.id st.lead.sfdc_type

/-- The enrichment loop of research_salesforce_node over `field_mappings`,
in dict order: a lead field that is empty is filled from a non-empty
Salesforce value. -/
def enrichLead (lead : LeadInfo) (data : CrmData) : LeadInfo :=
  let l := lead
  let l := if data.industry ≠ "" ∧ l.industry = "" then { l with industry := data.industry } else l
  let l := if data.employees ≠ "" ∧ l.employees = "" then { l with employees := data.employees } else l
  let l := if data.website ≠ "" ∧ l.website = "" then { l with website := data.website } else l
  let l := if data.phone ≠ "" ∧ l.phone = "" then { l with phone := data.phone } else l
  let l := if data.revenue ≠ "" ∧ l.revenue = "" then { l with revenue := data.revenue } else l
  let l := if data.company ≠ "" ∧ l.company_name = "" then { l with company_name := data.company } else l
  l

/-- Parallel node 1: writes `{"research": {"salesforce": result}}`, plus the
enriched lead when the lookup succeeded. -/
def research_salesforce_node (o : Oracle) (st : WorkflowState) : StateUpdate :=
  let result := salesforceResult o st
  { research := some (Dict.single "salesforce" (.sfdc result))
    lead := if result.success then some (enrichLead st.lead result.data) else none }

/-- The Marketo result of research_marketo_node: the activity result when
both the lead lookup and the activity fetch succeed, else the default
`{"success": False, "activities": []}`. -/
def marketoResult (o : Oracle) (st : WorkflowState) : MarketoResult :=
  if st.lead.email ≠ "" then
    let marketo_lookup := o.lookup_marketo_lead st.lead.email
    if marketo_lookup.success then
      let activity_result := o.get_marketo_activity (toString marketo_lookup.marketo_lead_id) 7
      if activity_result.success then activity_result
      else { success := false, activities := [] }
    else { success := false, activities := [] }
  else { success := false, activities := [] }

/-- Parallel node 2: writes `{"research": {"marketo": result}}`. -/
def research_marketo_node (o : Oracle) (st : WorkflowState) : StateUpdate :=
  { research := some (Dict.single "marketo" (.marketo (marketoResult o st))) }

/-- The web result of research_web_node: the web search when a company name
is present, else an error result. -/
def webResult (o : Oracle) (st : WorkflowState) : WebResult :=
  if st.lead.company_name ≠ "" then o.research_company_web st.lead.company_name st.lead.website
  else { success := false, error := "No company name provided" }

/-- Parallel node 3: writes `{"research": {"web": result}}`. -/
def research_web_node (o : Oracle) (st : WorkflowState) : StateUpdate :=
  { research := some (Dict.single "web" (.web (webResult o st))) }

/-- The inquiry classification of analyze_inquiry_node: `{"category":
"Empty"}` when the inquiry text is empty. -/
def inquiryResult (o : Oracle) (st : WorkflowState) : InquiryAnalysis :=
  if st.lead.sales_inquiry ≠ "" then o.analyze_inquiry st.lead.sales_inquiry
  else { category := some "Empty" }

/-- Fan-in node: writes `{"research": {"inquiry_analysis": result},
"research_complete": True}`. -/
def analyze_inquiry_node (o : Oracle) (st : WorkflowState) : StateUpdate :=
  { research := some (Dict.single "inquiry_analysis" (.inquiry (inquiryResult o st)))
    research_complete := some true }

/-- `research.get("inquiry_analysis", {})` seen as an inquiry analysis. -/
def researchInquiry (d : Dict String ResearchVal) : InquiryAnalysis :=
  match d "inquiry_analysis" with
  | some (.inquiry r) => r
  | _ => {}

/-- `research.get("web", {})` seen as a web result. -/
def researchWeb (d : Dict String ResearchVal) : WebResult :=
  match d "web" with
  | some (.web r) => r
  | _ => { success := false }

/-- `research.get("marketo", {})` seen as a Marketo result. -/
def researchMarketo (d : Dict String ResearchVal) : MarketoResult :=
  match d "marketo" with
  | some (.marketo r) => r
  | _ => { success := false }

/-- qualify_lead_node: spam inquiries are disqualified outright; otherwise
the AI qualification runs, and SQL status requires human approval. -/
def qualify_lead_node (o : Oracle) (st : WorkflowState) : StateUpdate :=
  let lead := st.lead
  let inquiry_analysis := researchInquiry st.research
  let category := inquiry_analysis.category.getD "Sales Inquiry"
  if category = "Spam/Solicitation" then
    { qualification := some { status := some "Disqualified", reason := some "Spam/Solicitation" }
      requires_human_approval := some false }
  else
    let result := o.qualify_lead_ai lead.sales_inquiry lead.email lead.revenue lead.industry lead.employees
    let status := result.status.getD "Unknown"
    { qualification := some result
      requires_human_approval := some (status == "SQL") }

/-- generate_email_node: builds version `current_version + 1` from the AI
generator, carrying the draft's feedback history. -/
def generate_email_node (o : Oracle) (st : WorkflowState) : StateUpdate :=
  let lead := st.lead
  let qualification := st.qualification
  let research := st.research
  let current_draft := st.email_draft
  let version := current_draft.version.getD 0 + 1
  let feedback_history := current_draft.feedback_history.getD []
  let previous_feedback := feedback_history.getLast?.getD ""
  let inquiry_type := (researchInquiry research).category.getD "Sales Inquiry"
  let web_research := researchWeb research
  let context_parts : List String :=
    if web_research.success then ["Company info: " ++ web_research.research] else []
  let marketo := researchMarketo research
  let context_parts := context_parts ++
    (if marketo.activity_count.getD 0 > 0 then
      ["Recent engagement: " ++ toString (marketo.activity_count.getD 0) ++ " activities in last 7 days"]
    else [])
  let result := o.generate_email lead.first_name lead.sales_inquiry
    (qualification.status.getD "Unknown") inquiry_type
    (String.intercalate "; " context_parts) previous_feedback
  let email_body := result.email_body.getD ""
  let body_html := email_body.replace "\n" "<br>"
  { email_draft := some
      { subject := some "Re: Your Telnyx Inquiry"
        body := some email_body
        body_html := some body_html
        full_email := some body_html
        version := some version
        feedback_history := some feedback_history } }

/-- review_email_node: one AI review; the draft is approved when the AI
approves or when this is the 3rd review (`review_count >= 3`), which caps
the generate/review loop. -/
def review_email_node (o : Oracle) (st : WorkflowState) : StateUpdate :=
  let lead := st.lead
  let qualification := st.qualification
  let email_draft := st.email_draft
  let result := o.review_email_quality (email_draft.body.getD "") lead.sales_inquiry
    (qualification.status.getD "Unknown")
  let review_count := st.email_review_count + 1
  let approved := result.approved.getD false || decide (3 ≤ review_count)
  if !approved then
    let feedback_history := email_draft.feedback_history.getD []
    let suggestions := result.suggestions.getD []
    let feedback_history :=
      if suggestions.isEmpty then feedback_history
      else feedback_history ++ [String.intercalate "; " suggestions]
    { email_draft := some { email_draft with feedback_history := some feedback_history }
      email_review_count := some review_count
      email_approved_by_ai := some false }
  else
    { email_review_count := some review_count
      email_approved_by_ai := some true }

/-- request_human_approval_node: posts the approval request to Slack and
marks the run as waiting; if Slack fails, approval is skipped. -/
def request_human_approval_node (o : Oracle) (st : WorkflowState) : StateUpdate :=
  let result := o.send_slack_approval_request st.lead.email
    (st.qualification.status.getD "Unknown") (st.email_draft.subject.getD "")
    (st.email_draft.body.getD "") (st.qualification.reason.getD "")
  if result.success then
    { human_approval := some
        { requested := some true
          slack_channel := result.channel
          slack_thread_ts := result.thread_ts
          status := some "pending" }
      workflow_status := some "waiting_for_human" }
  else
    { human_approval := some { requested := some false, status := some "skipped" }
      requires_human_approval := some false }

/-- process_human_response_node: with no human message the pre-set status
(default "approved") stands; otherwise the AI interprets the message and
feedback is appended to the draft when changes are requested. -/
def process_human_response_node (o : Oracle) (st : WorkflowState) : StateUpdate :=
  let human_approval := st.human_approval
  let human_message := human_approval.human_message.getD ""
  let email_draft := st.email_draft
  if human_message = "" then
    let status := human_approval.status.getD "approved"
    { human_approval := some { human_approval with status := some status } }
  else
    let interpretation := o.interpret_human_intent human_message (email_draft.body.getD "")
      st.lead.email
    let decision := interpretation.decision.getD "changes_requested"
    let feedback := interpretation.feedback.getD ""
    let reasoning := interpretation.reasoning.getD ""
    let updated_approval := { human_approval with
      status := some decision, feedback := some feedback, ai_reasoning := some reasoning }
    if decision = "changes_requested" ∧ feedback ≠ "" then
      { email_draft := some { email_draft with
          feedback_history := some (email_draft.feedback_history.getD [] ++ ["Human: " ++ feedback]) }
        human_approval := some updated_approval }
    else
      { human_approval := some updated_approval }

/-- send_email_node: sends via Gmail; on success with a known lead ID, also
logs a Salesforce task.  Both responses land in `tool_responses`. -/
def send_email_node (o : Oracle) (st : WorkflowState) : StateUpdate :=
  let lead := st.lead
  let email_draft := st.email_draft
  let gmail_result := o.send_email lead.email (email_draft.subject.getD "Re: Your Telnyx Inquiry")
    (email_draft.full_email.getD "")
  let new_tool_responses := Dict.single "gmail" (ToolResp.gmail gmail_result)
  if gmail_result.success ∧ lead.id ≠ "" then
    let sfdc_task_result := o.log_salesforce_task lead.id (email_draft.subject.getD "")
      (email_draft.body.getD "")
    { email_sent := some gmail_result.success
      tool_responses := some (Dict.insert "sfdc_task" (ToolResp.sfdc sfdc_task_result) new_tool_responses) }
  else
    { email_sent := some gmail_result.success
      tool_responses := some new_tool_responses }

/-- update_crm_node: pushes the qualification status to Salesforce. -/
def update_crm_node (o : Oracle) (st : WorkflowState) : StateUpdate :=
  let result := o.update_salesforce_status st.lead.id st.lead.sfdc_type
    (st.qualification.status.getD "Unknown")
  { salesforce_updated := some result.success
    tool_responses := some (Dict.single "sfdc_update" (ToolResp.sfdc result)) }

/-- log_results_node: appends the business summary row to Google Sheets. -/
def log_results_node (o : Oracle) (st : WorkflowState) : StateUpdate :=
  { logged_to_sheets := some (o.log_to_sheets st).success }

/-- finalize_node: marks the workflow completed. -/
def finalize_node (_ : Oracle) (_ : WorkflowState) : StateUpdate :=
  { workflow_status := some "completed" }

/-- skip_email_node: no email is sent; the draft is replaced by the skipped
marker dict. -/
def skip_email_node (_ : Oracle) (_ : WorkflowState) : StateUpdate :=
  { email_sent := some false
    email_draft := some { body := some "", skipped := some true, version := some 0 } }

/-- A state viewed as the partial update containing every field, as returned
by the `check_approval` pass-through lambda in graph.py. -/
def stateAsUpdate (st : WorkflowState) : StateUpdate :=
  { lead := some st.lead
    timestamp := some st.timestamp
    research := some st.research
    research_complete := some st.research_complete
    qualification := some st.qualification
    email_draft := some st.email_draft
    email_review_count := some st.email_review_count
    email_approved_by_ai := some st.email_approved_by_ai
    human_approval := some st.human_approval
    requires_human_approval := some st.requires_human_approval
    email_sent := some st.email_sent
    salesforce_updated := some st.salesforce_updated
    logged_to_sheets := some st.logged_to_sheets
    tool_responses := some st.tool_responses
    errors := some st.errors
    current_node := some st.current_node
    workflow_status := some st.workflow_status }

/-- graph.py `builder.add_node("check_approval", lambda state: state)`. -/
def check_approval_node (_ : Oracle) (st : WorkflowState) : StateUpdate :=
  stateAsUpdate st

/-! ## Routing functions and graph wiring (graph.py) -/

/-- Route after qualification: only Disqualified (spam) skips email. -/
def route_after_qualification (state : WorkflowState) : String :=
  if state.qualification.status.getD "Unknown" = "Disqualified" then "skip_email"
  else "generate_email"

/-- Route after the AI email review: loop back when not approved. -/
def route_after_email_review (state : WorkflowState) : String :=
  if state.email_approved_by_ai = false then "generate_email"
  else "check_approval"

/-- Route on the approval check: SQL leads go to human approval. -/
def route_check_approval (state : WorkflowState) : String :=
  if state.requires_human_approval then "request_approval"
  else "send_email"

/-- Route after the human response; an unclear status defaults to sending. -/
def route_after_human_response (state : WorkflowState) : String :=
  let status := state.human_approval.status.getD "pending"
  if status = "approved" then "send_email"
  else if status = "changes_requested" then "generate_email"
  else if status = "rejected" then "skip_email"
  else "send_email"

/-- A conditional edge: source node, routing function, and the declared
mapping from labels to target nodes. -/
structure CondEdge where
  source : String
  router : WorkflowState → String
  mapping : List (String × String)

/-- The graph description: registered nodes, unconditional edges,
conditional edges, and the interrupt set passed to `compile`. -/
structure GraphDef where
  nodes : List (String × (Oracle → WorkflowState → StateUpdate))
  edges : List (String × String)
  conditional : List CondEdge
  interrupt_after : List String

/-- LangGraph's START sentinel. -/
def START : String := "__start__"

/-- LangGraph's END sentinel. -/
def END : String := "__end__"

/-- graph.py `build_workflow_graph()`: the registered nodes and edges,
compiled with `interrupt_after=["request_approval"]`. -/
def build_workflow_graph : GraphDef :=
  { nodes :=
      [("research_salesforce", research_salesforce_node)
      , ("research_marketo", research_marketo_node)
      , ("research_web", research_web_node)
      , ("analyze_inquiry", analyze_inquiry_node)
      , ("qualify_lead", qualify_lead_node)
      , ("generate_email", generate_email_node)
      , ("review_email", review_email_node)
      , ("request_approval", request_human_approval_node)
      , ("process_human_response", process_human_response_node)
      , ("check_approval", check_approval_node)
      , ("send_email", send_email_node)
      , ("update_crm", update_crm_node)
      , ("log_results", log_results_node)
      , ("finalize", finalize_node)
      , ("skip_email", skip_email_node)]
    edges :=
      [(START, "research_salesforce")
      , (START, "research_marketo")
      , (START, "research_web")
      , ("research_salesforce", "analyze_inquiry")
      , ("research_marketo", "analyze_inquiry")
      , ("research_web", "analyze_inquiry")
      , ("analyze_inquiry", "qualify_lead")
      , ("skip_email", "update_crm")
      , ("generate_email", "review_email")
      , ("request_approval", "process_human_response")
      , ("send_email", "update_crm")
      , ("update_crm", "log_results")
      , ("log_results", "finalize")
      , ("finalize", END)]
    conditional :=
      [ { source := "qualify_lead"
          router := route_after_qualification
          mapping := [("skip_email", "skip_email"), ("generate_email", "generate_email")] }
      , { source := "review_email"
          router := route_after_email_review
          mapping := [("generate_email", "generate_email"), ("check_approval", "check_approval")] }
      , { source := "check_approval"
          router := route_check_approval
          mapping := [("request_approval", "request_approval"), ("send_email", "send_email")] }
      , { source := "process_human_response"
          router := route_after_human_response
          mapping := [("generate_email", "generate_email"), ("send_email", "send_email")
                     , ("skip_email", "skip_email")] } ]
    interrupt_after := ["request_approval"] }

/-! ## The execution scheduler

Modelled from the spec: the execution engine itself is the LangGraph
library, which is not part of this repository's sources; its behaviour is
modelled from the specification's scheduler design.  Execution proceeds in
waves: every node of the current wave runs against the same pre-wave
snapshot, all partial updates are merged (channel-wise, per field policy)
before any successor starts — this is the join barrier: a fan-in successor
is not invoked until every predecessor in the wave has produced its update
and those updates were merged.  A conditional edge consults its router on
the freshly merged state; an undeclared label is a fatal routing error.
After a wave containing an interrupt-flagged node, the scheduler persists a
checkpoint keyed by the thread id and yields instead of continuing. -/

/-- A running traversal: the merged state, the wave about to execute, the
names already executed, and the invocation trace (each node paired with the
state snapshot it was invoked on). -/
structure RunState where
  state : WorkflowState
  wave : List String
  executed : List String
  trace : List (String × WorkflowState)

/-- The registered task function of a node name (total on this graph's
registered names; an unregistered name, impossible after build-time
validation, is a no-op). -/
def nodeFn (g : GraphDef) (n : String) : Oracle → WorkflowState → StateUpdate :=
  match g.nodes.lookup n with
  | some f => f
  | none => fun _ _ => {}

/-- Resolve a conditional edge: the router's label must be declared in the
mapping, otherwise the run aborts with a fatal routing error. -/
def routeTarget (c : CondEdge) (st : WorkflowState) : Except String String :=
  match c.mapping.lookup (c.router st) with
  | some t => .ok t
  | none => .error ("unknown branch label " ++ c.router st)

/-- All successors of a node: unconditional edge targets, plus the routed
target when the node has a conditional edge. -/
def nodeSuccessors (g : GraphDef) (st : WorkflowState) (n : String) :
    Except String (List String) :=
  let staticTargets := g.edges.filterMap (fun e => if e.1 = n then some e.2 else none)
  match g.conditional.find? (fun c => c.source == n) with
  | none => .ok staticTargets
  | some c =>
    match routeTarget c st with
    | .ok t => .ok (staticTargets ++ [t])
    | .error e => .error e

/-- Successors of a whole wave, in wave order. -/
def waveSuccessors (g : GraphDef) (st : WorkflowState) : List String → Except String (List String)
  | [] => .ok []
  | n :: ns =>
    match nodeSuccessors g st n with
    | .error e => .error e
    | .ok ts =>
      match waveSuccessors g st ns with
      | .error e => .error e
      | .ok rest => .ok (ts ++ rest)

/-- First-occurrence deduplication of a name list (a fan-in successor joins
the next wave once). -/
def dedupNames (seen : List String) : List String → List String
  | [] => []
  | n :: ns => if seen.contains n then dedupNames seen ns else n :: dedupNames (n :: seen) ns

/-- One wave: run every member on the pre-wave snapshot, merge all partial
updates, then compute the next wave from the merged state. -/
def superstep (g : GraphDef) (o : Oracle) (rs : RunState) : Except String RunState :=
  let updates := rs.wave.map (fun n => nodeFn g n o rs.state)
  let newState := updates.foldl applyUpdate rs.state
  match waveSuccessors g newState rs.wave with
  | .error e => .error e
  | .ok succs =>
    .ok { state := newState
          wave := dedupNames [] succs
          executed := rs.executed ++ rs.wave
          trace := rs.trace ++ rs.wave.map (fun n => (n, rs.state)) }

/-- The outcome of driving the scheduler. -/
inductive RunOutcome where
  | completed (rs : RunState)
  | suspended (rs : RunState)
  | routingError (msg : String) (rs : RunState)
  | outOfFuel (rs : RunState)

/-- The run state an outcome carries. -/
def RunOutcome.toRunState : RunOutcome → RunState
  | .completed rs => rs
  | .suspended rs => rs
  | .routingError _ rs => rs
  | .outOfFuel rs => rs

/-- Drive the traversal: stop at the terminal marker, abort on a routing
error, and suspend after a wave that contained an interrupt-flagged node.
Cycles make fuel necessary; the engine itself does not bound loops. -/
def runLoop (g : GraphDef) (o : Oracle) : Nat → RunState → RunOutcome
  | 0, rs => .outOfFuel rs
  | Nat.succ fuel, rs =>
    if rs.wave = [] ∨ rs.wave = [END] then .completed rs
    else
      match superstep g o rs with
      | .error e => .routingError e rs
      | .ok rs2 =>
        if rs.wave.any (fun n => g.interrupt_after.contains n) then .suspended rs2
        else runLoop g o fuel rs2

/-- A persisted checkpoint: the serialized state and the resume position. -/
structure Checkpoint where
  state : WorkflowState
  wave : List String
  executed : List String

/-- The checkpoint store, keyed by thread id. -/
def Checkpoints := Dict String Checkpoint

/-- The outcome of `graph.invoke`. -/
inductive InvokeOutcome where
  | completed (rs : RunState)
  | suspended (rs : RunState)
  | routingError (msg : String) (rs : RunState)
  | outOfFuel (rs : RunState)
  | noCheckpoint

/-- The invocation trace of an outcome. -/
def InvokeOutcome.trace : InvokeOutcome → List (String × WorkflowState)
  | .completed rs => rs.trace
  | .suspended rs => rs.trace
  | .routingError _ rs => rs.trace
  | .outOfFuel rs => rs.trace
  | .noCheckpoint => []

/-- Run the scheduler and persist the resulting position under the thread
id (on suspension this is the suspension point with the node following the
interrupt as the next wave). -/
def runAndCheckpoint (g : GraphDef) (o : Oracle) (ck : Checkpoints) (thread_id : String)
    (fuel : Nat) (rs : RunState) : InvokeOutcome × Checkpoints :=
  match runLoop g o fuel rs with
  | .completed rs2 =>
    (.completed rs2, Dict.insert thread_id ⟨rs2.state, rs2.wave, rs2.executed⟩ ck)
  | .suspended rs2 =>
    (.suspended rs2, Dict.insert thread_id ⟨rs2.state, rs2.wave, rs2.executed⟩ ck)
  | .routingError e rs2 => (.routingError e rs2, ck)
  | .outOfFuel rs2 => (.outOfFuel rs2, ck)

/-- The entry wave: the targets of the START edges. -/
def startWave (g : GraphDef) : List String :=
  g.edges.filterMap (fun e => if e.1 = START then some e.2 else none)

/-- `compiled_graph.invoke(input, config={"configurable": {"thread_id":
thread_id}})`: with an input state, a fresh traversal from START; with
input `None`, the traversal continues from the checkpoint stored under the
thread id (an error when none exists). -/
def graphInvoke (g : GraphDef) (o : Oracle) (ck : Checkpoints) (thread_id : String)
    (input : Option WorkflowState) (fuel : Nat) : InvokeOutcome × Checkpoints :=
  match input with
  | some st => runAndCheckpoint g o ck thread_id fuel ⟨st, startWave g, [START], []⟩
  | none =>
    match ck thread_id with
    | none => (.noCheckpoint, ck)
    | some cp => runAndCheckpoint g o ck thread_id fuel ⟨cp.state, cp.wave, cp.executed, []⟩

/-- `compiled_graph.update_state(config, update)`: apply a partial update
to the checkpointed state through the ordinary channel reducers. -/
def update_state (ck : Checkpoints) (thread_id : String) (u : StateUpdate) : Checkpoints :=
  match ck thread_id with
  | none => ck
  | some cp => Dict.insert thread_id ⟨applyUpdate cp.state u, cp.wave, cp.executed⟩ ck

/-! ## The pending-workflow store as the handlers see it

main.py manipulates the pending-workflows dict through the store functions
of slack_listener.py; here the store is modelled at the level of its
decoded contents (the dict `_load_pending_workflows` returns), keyed by
`f"{channel}:{thread_ts}"`.  Serialization fidelity of the file itself is
the subject of the `FileStore` model above. -/

/-- One pending entry: `{"state": workflow_state, "thread_id": thread_id}`. -/
structure PendingEntry where
  state : WorkflowState
  thread_id : Option String

/-- `register_pending_workflow(channel, thread_ts, workflow_state, thread_id)`. -/
def register_pending_workflow (store : Dict String PendingEntry)
    (channel thread_ts : String) (workflow_state : WorkflowState)
    (thread_id : Option String) : Dict String PendingEntry :=
  Dict.insert (channel ++ ":" ++ thread_ts) ⟨workflow_state, thread_id⟩ store

/-- `get_pending_workflow(channel, thread_ts)`. -/
def get_pending_workflow (store : Dict String PendingEntry)
    (channel thread_ts : String) : Option PendingEntry :=
  store (channel ++ ":" ++ thread_ts)

/-- `remove_pending_workflow(channel, thread_ts)`. -/
def remove_pending_workflow (store : Dict String PendingEntry)
    (channel thread_ts : String) : Dict String PendingEntry :=
  Dict.erase (channel ++ ":" ++ thread_ts) store

/-! ## The HTTP handlers (main.py) -/

/-- Python truthiness of an optional string (`None` and `""` are falsy), as
used by `if channel and thread_ts`. -/
def pyTruthy : Option String → Bool
  | none => false
  | some s => s != ""

/-- An HTTP response, reduced to the fields the claims concern: the status
code, the JSON `status` field, and the JSON `error` detail. -/
structure HttpResponse where
  code : Nat
  status : String
  error : Option String := none
  deriving DecidableEq

/-- The `update_state` payload the /human-response handler builds before
resuming: the human's message and reviewer are written into the pending
state's `human_approval` with status reset to "pending", and
`workflow_status` back to "running". -/
def resumeUpdate (workflow_state : WorkflowState) (human_message reviewer : String) :
    StateUpdate :=
  { human_approval := some { workflow_state.human_approval with
      human_message := some human_message
      reviewer := some reviewer
      status := some "pending" }
    workflow_status := some "running" }

/-- main.py `/human-response`: look up the pending workflow (404 when there
is none), push the human's message into the checkpoint and resume the
graph (`invoke(None)` under the stored thread id, abstracted as the
fallible `resumeGraph`), then either re-register (still waiting, 202),
remove the entry and report completion (200), or surface the exception
(500).  The boolean reports whether the graph was resumed at all. -/
def human_response (resumeGraph : Option String → StateUpdate → Except String WorkflowState)
    (store : Dict String PendingEntry) (channel thread_ts human_message reviewer : String) :
    HttpResponse × Dict String PendingEntry × Bool :=
  match get_pending_workflow store channel thread_ts with
  | none =>
    ({ code := 404, status := "error", error := some "No pending workflow found for this thread" },
     store, false)
  | some pending =>
    let workflow_state := pending.state
    match resumeGraph pending.thread_id (resumeUpdate workflow_state human_message reviewer) with
    | .error e => ({ code := 500, status := "error", error := some e }, store, true)
    | .ok final_state =>
      if final_state.workflow_status = "waiting_for_human" then
        let new_channel := final_state.human_approval.slack_channel
        let new_thread_ts := final_state.human_approval.slack_thread_ts
        if pyTruthy new_channel && pyTruthy new_thread_ts then
          ({ code := 202, status := "waiting_for_approval" },
           register_pending_workflow store (new_channel.getD "") (new_thread_ts.getD "")
             final_state pending.thread_id, true)
        else
          ({ code := 202, status := "waiting_for_approval" }, store, true)
      else
        ({ code := 200, status := "completed" },
         remove_pending_workflow store channel thread_ts, true)

/-- main.py `/contact-sales`: build the initial state, invoke the graph
(abstracted as the fallible `invokeStart`), then either register the
pending workflow and answer 202, answer 200 on completion, or surface the
exception (500). -/
def contact_sales (invokeStart : WorkflowState → Except String WorkflowState)
    (store : Dict String PendingEntry) (payload : LeadInfo) (now thread_id : String) :
    HttpResponse × Dict String PendingEntry × Bool :=
  let initial_state := create_initial_state payload now
  match invokeStart initial_state with
  | .error e => ({ code := 500, status := "error", error := some e }, store, true)
  | .ok final_state =>
    if final_state.workflow_status = "waiting_for_human" then
      let channel := final_state.human_approval.slack_channel
      let thread_ts := final_state.human_approval.slack_thread_ts
      if pyTruthy channel && pyTruthy thread_ts then
        ({ code := 202, status := "waiting_for_approval" },
         register_pending_workflow store (channel.getD "") (thread_ts.getD "")
           final_state (some thread_id), true)
      else
        ({ code := 202, status := "waiting_for_approval" }, store, true)
    else
      ({ code := 200, status := "completed" }, store, true)

/-! ## Two concurrent resumes of the same session

main.py and slack_listener.py can run the /human-response sequence in two
processes against the shared pending-workflows file.  The advisory
`fcntl.flock` calls are held only for the duration of one
`_load_pending_workflows` or `_save_pending_workflows` call, so each load
and each save is atomic, but nothing spans the whole
load–resume–remove sequence.  The model below therefore gives each process
three atomic steps: (0) `get_pending_workflow` (one locked load), (1) the
graph resumption when an entry was found (the externally visible side
effect), (2) `remove_pending_workflow` (modelled as one atomic
read-modify-write, which is coarser — hence more favourable to mutual
exclusion — than the two separately locked calls the code performs). -/

/-- One process running the /human-response resume sequence. -/
structure ResumeProc where
  pc : Nat := 0
  found : Bool := false
  invoked : Bool := false
  deriving DecidableEq

/-- The shared store plus the two processes. -/
structure RaceState where
  store : Dict String PendingEntry
  p1 : ResumeProc := {}
  p2 : ResumeProc := {}

/-- One atomic step of a resume process against the shared store. -/
def resumeStep (key : String) (p : ResumeProc) (store : Dict String PendingEntry) :
    ResumeProc × Dict String PendingEntry :=
  match p.pc with
  | 0 => ({ p with pc := 1, found := (store key).isSome }, store)
  | 1 =>
    if p.found then ({ p with pc := 2, invoked := true }, store)
    else ({ p with pc := 3 }, store)
  | 2 => ({ p with pc := 3 }, Dict.erase key store)
  | _ => (p, store)

/-- Run one step of the scheduled process (`false` = process 1, `true` =
process 2). -/
def raceStep (key : String) (s : RaceState) (pid : Bool) : RaceState :=
  if pid then
    let next := resumeStep key s.p2 s.store
    { s with p2 := next.1, store := next.2 }
  else
    let next := resumeStep key s.p1 s.store
    { s with p1 := next.1, store := next.2 }

/-- Run a whole interleaving schedule. -/
def raceRun (key : String) (sched : List Bool) (s : RaceState) : RaceState :=
  sched.foldl (raceStep key) s

/-! ## Concrete sample values used by witnesses -/

/-- An oracle whose collaborators all answer with failure defaults. -/
def stubOracle : Oracle :=
  { lookup_crm_data := fun _ _ => { success := false }
    lookup_marketo_lead := fun _ => { success := false }
    get_marketo_activity := fun _ _ => { success := false }
    research_company_web := fun _ _ => { success := false }
    analyze_inquiry := fun _ => {}
    qualify_lead_ai := fun _ _ _ _ _ => {}
    generate_email := fun _ _ _ _ _ _ => {}
    review_email_quality := fun _ _ _ => {}
    send_slack_approval_request := fun _ _ _ _ _ => { success := false }
    interpret_human_intent := fun _ _ _ => {}
    send_email := fun _ _ _ => { success := false }
    log_salesforce_task := fun _ _ _ => { success := false }
    update_salesforce_status := fun _ _ _ => { success := false }
    log_to_sheets := fun _ => { success := false } }

/-- A workflow state with every field at its initial default. -/
def sampleState : WorkflowState := {}

/-- A completed-state stand-in returned by stub resume functions. -/
def completedState : WorkflowState := { workflow_status := "completed" }

/-- A pending store holding one entry registered for channel "C", thread
"T". -/
def samplePendingStore : Dict String PendingEntry :=
  register_pending_workflow Dict.empty "C" "T" sampleState (some "tid-1")

/-- The merge step the engine applies as each concurrent branch completes:
fold the branch's `research` contribution into the accumulated dict with
the declared reducer. -/
def researchMergeStep (acc u : Dict String ResearchVal) : Dict String ResearchVal :=
  merge_research_results (some acc) (some u)

/-- The `research` contributions of the fan-out branches and the fan-in
node, in graph-declaration order: each writes one distinct key. -/
def researchBranchUpdates (o : Oracle) (st : WorkflowState) : List (Dict String ResearchVal) :=
  [(research_salesforce_node o st).research.getD Dict.empty
  , (research_marketo_node o st).research.getD Dict.empty
  , (research_web_node o st).research.getD Dict.empty
  , (analyze_inquiry_node o st).research.getD Dict.empty]

/-- The merged state after the research fan-out wave: all three branch
updates applied to the entry snapshot. -/
def researchMergedState (o : Oracle) (st0 : WorkflowState) : WorkflowState :=
  applyUpdate (applyUpdate (applyUpdate st0 (research_salesforce_node o st0))
    (research_marketo_node o st0)) (research_web_node o st0)

/-! ## Helper lemmas -/

theorem merge_some_some {K V : Type} (c u : Dict K V) :
    merge_research_results (some c) (some u) = Dict.updateWith c u := rfl

theorem Dict.updateWith_assoc {K V : Type} (d₁ d₂ d₃ : Dict K V) :
    Dict.updateWith (Dict.updateWith d₁ d₂) d₃ = Dict.updateWith d₁ (Dict.updateWith d₂ d₃) := by
  funext k
  simp only [Dict.updateWith]
  cases d₃ k <;> cases d₂ k <;> rfl

theorem Dict.updateWith_comm_of_disjoint {K V : Type} {d₁ d₂ : Dict K V}
    (h : Dict.DisjointKeys d₁ d₂) :
    Dict.updateWith d₁ d₂ = Dict.updateWith d₂ d₁ := by
  funext k
  simp only [Dict.updateWith]
  rcases h k with h₁ | h₁ <;> rw [h₁]
  · cases d₂ k <;> rfl
  · cases d₁ k <;> rfl

theorem Dict.updateWith_right_comm {K V : Type} {d₁ d₂ : Dict K V}
    (h : Dict.DisjointKeys d₁ d₂) (z : Dict K V) :
    Dict.updateWith (Dict.updateWith z d₁) d₂ = Dict.updateWith (Dict.updateWith z d₂) d₁ := by
  rw [Dict.updateWith_assoc, Dict.updateWith_assoc, Dict.updateWith_comm_of_disjoint h]

theorem Dict.single_disjoint {V : Type} {k₁ k₂ : String} (h : k₁ ≠ k₂) (v₁ v₂ : V) :
    Dict.DisjointKeys (Dict.single k₁ v₁) (Dict.single k₂ v₂) := by
  intro k
  by_cases hk : k = k₁
  · right
    subst hk
    simp [Dict.single, Dict.insert, Dict.empty, h]
  · left
    simp [Dict.single, Dict.insert, Dict.empty, hk]

theorem researchMergeStep_right_comm {x y : Dict String ResearchVal}
    (h : Dict.DisjointKeys x y) (z : Dict String ResearchVal) :
    researchMergeStep (researchMergeStep z x) y = researchMergeStep (researchMergeStep z y) x := by
  simp only [researchMergeStep, merge_some_some]
  exact Dict.updateWith_right_comm h z

theorem researchBranchUpdates_eq (o : Oracle) (st : WorkflowState) :
    researchBranchUpdates o st =
      [Dict.single "salesforce" (.sfdc (salesforceResult o st))
      , Dict.single "marketo" (.marketo (marketoResult o st))
      , Dict.single "web" (.web (webResult o st))
      , Dict.single "inquiry_analysis" (.inquiry (inquiryResult o st))] := rfl

theorem researchBranchUpdates_pairwise_comm (o : Oracle) (st : WorkflowState) :
    ∀ x ∈ researchBranchUpdates o st, ∀ y ∈ researchBranchUpdates o st,
      ∀ z, researchMergeStep (researchMergeStep z x) y = researchMergeStep (researchMergeStep z y) x := by
  intro x hx y hy z
  rw [researchBranchUpdates_eq] at hx hy
  simp only [List.mem_cons, List.not_mem_nil, or_false] at hx hy
  rcases hx with rfl | rfl | rfl | rfl <;> rcases hy with rfl | rfl | rfl | rfl <;>
    first
      | rfl
      | exact researchMergeStep_right_comm (Dict.single_disjoint (by decide) _ _) z

theorem researchFold_keys (o : Oracle) (st : WorkflowState) :
    ∀ k ∈ (["salesforce", "marketo", "web", "inquiry_analysis"] : List String),
      ((researchBranchUpdates o st).foldl researchMergeStep Dict.empty) k ≠ none := by
  intro k hk
  rw [researchBranchUpdates_eq]
  simp only [List.foldl_cons, List.foldl_nil, researchMergeStep, merge_some_some]
  fin_cases hk <;> simp [Dict.updateWith, Dict.single, Dict.insert, Dict.empty]

/-- C1: each branch of the research fan-out (and the fan-in analyzer)
writes one distinct key of the `research` field; the reducer
`merge_research_results` combines the contributions key-wise, so every
order of applying the branches' partial updates yields the identical
merged dict containing all contributed keys, and the reducer is
commutative on disjoint-key updates and associative. -/
theorem C1_research_merge_order_independent (o : Oracle) (st : WorkflowState)
    (l : List (Dict String ResearchVal)) (h : l.Perm (researchBranchUpdates o st)) :
    l.foldl researchMergeStep Dict.empty
        = (researchBranchUpdates o st).foldl researchMergeStep Dict.empty
    ∧ (∀ k ∈ (["salesforce", "marketo", "web", "inquiry_analysis"] : List String),
        l.foldl researchMergeStep Dict.empty k ≠ none)
    ∧ (∀ d₁ d₂ : Dict String ResearchVal, Dict.DisjointKeys d₁ d₂ →
        merge_research_results (some d₁) (some d₂) = merge_research_results (some d₂) (some d₁))
    ∧ (∀ d₁ d₂ d₃ : Dict String ResearchVal,
        merge_research_results (some (merge_research_results (some d₁) (some d₂))) (some d₃)
          = merge_research_results (some d₁) (some (merge_research_results (some d₂) (some d₃)))) := by
  have hfold : l.foldl researchMergeStep Dict.empty
      = (researchBranchUpdates o st).foldl researchMergeStep Dict.empty := by
    refine h.foldl_eq' ?_ Dict.empty
    intro x hx y hy z
    exact researchBranchUpdates_pairwise_comm o st x (h.subset hx) y (h.subset hy) z
  refine ⟨hfold, ?_, ?_, ?_⟩
  · intro k hk
    rw [hfold]
    exact researchFold_keys o st k hk
  · intro d₁ d₂ hd
    simp only [merge_some_some]
    exact Dict.updateWith_comm_of_disjoint hd
  · intro d₁ d₂ d₃
    simp only [merge_some_some]
    exact Dict.updateWith_assoc d₁ d₂ d₃

/-- Witness for C1: a concrete swapped completion order (Marketo finishes
before Salesforce) of the four branch contributions. -/
theorem C1_witness :
    ([(research_marketo_node stubOracle sampleState).research.getD Dict.empty
     , (research_salesforce_node stubOracle sampleState).research.getD Dict.empty
     , (research_web_node stubOracle sampleState).research.getD Dict.empty
     , (analyze_inquiry_node stubOracle sampleState).research.getD Dict.empty].Perm
        (researchBranchUpdates stubOracle sampleState))
    ∧ ([(research_marketo_node stubOracle sampleState).research.getD Dict.empty
       , (research_salesforce_node stubOracle sampleState).research.getD Dict.empty
       , (research_web_node stubOracle sampleState).research.getD Dict.empty
       , (analyze_inquiry_node stubOracle sampleState).research.getD Dict.empty].foldl
            researchMergeStep Dict.empty
          = (researchBranchUpdates stubOracle sampleState).foldl researchMergeStep Dict.empty
      ∧ (∀ k ∈ (["salesforce", "marketo", "web", "inquiry_analysis"] : List String),
          [(research_marketo_node stubOracle sampleState).research.getD Dict.empty
          , (research_salesforce_node stubOracle sampleState).research.getD Dict.empty
          , (research_web_node stubOracle sampleState).research.getD Dict.empty
          , (analyze_inquiry_node stubOracle sampleState).research.getD Dict.empty].foldl
              researchMergeStep Dict.empty k ≠ none)
      ∧ (∀ d₁ d₂ : Dict String ResearchVal, Dict.DisjointKeys d₁ d₂ →
          merge_research_results (some d₁) (some d₂) = merge_research_results (some d₂) (some d₁))
      ∧ (∀ d₁ d₂ d₃ : Dict String ResearchVal,
          merge_research_results (some (merge_research_results (some d₁) (some d₂))) (some d₃)
            = merge_research_results (some d₁) (some (merge_research_results (some d₂) (some d₃))))) := by
  have hperm :
      [(research_marketo_node stubOracle sampleState).research.getD Dict.empty
      , (research_salesforce_node stubOracle sampleState).research.getD Dict.empty
      , (research_web_node stubOracle sampleState).research.getD Dict.empty
      , (analyze_inquiry_node stubOracle sampleState).research.getD Dict.empty].Perm
        (researchBranchUpdates stubOracle sampleState) :=
    List.Perm.swap _ _ _
  exact ⟨hperm, C1_research_merge_order_independent stubOracle sampleState _ hperm⟩

mutual
theorem roundtrip_val : ∀ v : PyVal, v.jsonNative = true → JValue.toPy (PyVal.toJson v) = v
  | .pystr _, _ => rfl
  | .pyint _, _ => rfl
  | .pybool _, _ => rfl
  | .pynone, _ => rfl
  | .pylist xs, h => by
    have h₁ : PyVal.jsonNativeList xs = true := by
      simpa [PyVal.jsonNative] using h
    simp [PyVal.toJson, JValue.toPy, roundtrip_list xs h₁]
  | .pydict es, h => by
    have h₁ : PyVal.jsonNativeEntries es = true := by
      simpa [PyVal.jsonNative] using h
    simp [PyVal.toJson, JValue.toPy, roundtrip_entries es h₁]
  | .pyobj _, h => by
    simp [PyVal.jsonNative] at h

theorem roundtrip_list :
    ∀ xs : List PyVal, PyVal.jsonNativeList xs = true →
      JValue.toPyList (PyVal.toJsonList xs) = xs
  | [], _ => rfl
  | v :: vs, h => by
    have h₁ : v.jsonNative = true := by
      have := (Bool.and_eq_true _ _).mp (by simpa [PyVal.jsonNativeList] using h)
      exact this.1
    have h₂ : PyVal.jsonNativeList vs = true := by
      have := (Bool.and_eq_true _ _).mp (by simpa [PyVal.jsonNativeList] using h)
      exact this.2
    simp [PyVal.toJsonList, JValue.toPyList, roundtrip_val v h₁, roundtrip_list vs h₂]

theorem roundtrip_entries :
    ∀ es : List (String × PyVal), PyVal.jsonNativeEntries es = true →
      JValue.toPyEntries (PyVal.toJsonEntries es) = es
  | [], _ => rfl
  | (k, v) :: es, h => by
    have h₁ : v.jsonNative = true := by
      have := (Bool.and_eq_true _ _).mp (by simpa [PyVal.jsonNativeEntries] using h)
      exact this.1
    have h₂ : PyVal.jsonNativeEntries es = true := by
      have := (Bool.and_eq_true _ _).mp (by simpa [PyVal.jsonNativeEntries] using h)
      exact this.2
    simp [PyVal.toJsonEntries, JValue.toPyEntries, roundtrip_val v h₁, roundtrip_entries es h₂]
end

mutual
theorem native_toPy : ∀ j : JValue, (JValue.toPy j).jsonNative = true
  | .jstr _ => rfl
  | .jnum _ => rfl
  | .jbool _ => rfl
  | .jnull => rfl
  | .jarr xs => by
    simp [JValue.toPy, PyVal.jsonNative, native_toPyList xs]
  | .jobj es => by
    simp [JValue.toPy, PyVal.jsonNative, native_toPyEntries es]

theorem native_toPyList : ∀ xs : List JValue,
    PyVal.jsonNativeList (JValue.toPyList xs) = true
  | [] => rfl
  | v :: vs => by
    simp [JValue.toPyList, PyVal.jsonNativeList, native_toPy v, native_toPyList vs]

theorem native_toPyEntries : ∀ es : List (String × JValue),
    PyVal.jsonNativeEntries (JValue.toPyEntries es) = true
  | [] => rfl
  | (k, v) :: es => by
    simp [JValue.toPyEntries, PyVal.jsonNativeEntries, native_toPy v, native_toPyEntries es]
end

theorem lookup_pyUpsert (k : String) (v : PyVal) :
    ∀ l : List (String × PyVal), (pyUpsert k v l).lookup k = some v
  | [] => by simp [pyUpsert, List.lookup]
  | (q, w) :: es => by
    by_cases hq : q = k
    · simp [pyUpsert, hq, List.lookup]
    · simp [pyUpsert, hq, List.lookup, show (k == q) = false from beq_eq_false_iff_ne.mpr (Ne.symm hq),
        lookup_pyUpsert k v es]

theorem jsonNativeEntries_pyUpsert (k : String) (v : PyVal) (hv : v.jsonNative = true) :
    ∀ l : List (String × PyVal), PyVal.jsonNativeEntries l = true →
      PyVal.jsonNativeEntries (pyUpsert k v l) = true
  | [], _ => by simp [pyUpsert, PyVal.jsonNativeEntries, hv]
  | (q, w) :: es, h => by
    have h₁ : w.jsonNative = true := by
      have := (Bool.and_eq_true _ _).mp (by simpa [PyVal.jsonNativeEntries] using h)
      exact this.1
    have h₂ : PyVal.jsonNativeEntries es = true := by
      have := (Bool.and_eq_true _ _).mp (by simpa [PyVal.jsonNativeEntries] using h)
      exact this.2
    by_cases hq : q = k
    · simp [pyUpsert, hq, PyVal.jsonNativeEntries, hv, h₂]
    · simp [pyUpsert, hq, PyVal.jsonNativeEntries, h₁, jsonNativeEntries_pyUpsert k v hv es h₂]

theorem load_native (file : Option (List (String × JValue))) :
    PyVal.jsonNativeEntries (FileStore._load_pending_workflows file) = true := by
  cases file with
  | none => rfl
  | some es => exact native_toPyEntries es

/-- C2: registering a pending workflow serializes the suspended state into
the pending-workflows file with `default=str`; loading the file back and
looking the session key up yields the entry with a state equal to the one
persisted at suspension (round-trip fidelity for JSON-representable
states, which the workflow states are: strings, booleans, numbers, lists
and string-keyed dicts). -/
theorem C2_suspend_resume_roundtrip (file : Option (List (String × JValue)))
    (channel thread_ts : String) (workflow_state thread_id : PyVal)
    (hst : workflow_state.jsonNative = true) (htid : thread_id.jsonNative = true) :
    FileStore.get_pending_workflow
        (FileStore.register_pending_workflow file channel thread_ts workflow_state thread_id)
        channel thread_ts
      = some (.pydict [("state", workflow_state), ("thread_id", thread_id)]) := by
  have hentry : (PyVal.pydict [("state", workflow_state), ("thread_id", thread_id)]).jsonNative
      = true := by
    simp [PyVal.jsonNative, PyVal.jsonNativeEntries, hst, htid]
  have hup := jsonNativeEntries_pyUpsert (channel ++ ":" ++ thread_ts) _ hentry _ (load_native file)
  show List.lookup (channel ++ ":" ++ thread_ts)
      (JValue.toPyEntries (PyVal.toJsonEntries
        (pyUpsert (channel ++ ":" ++ thread_ts)
          (PyVal.pydict [("state", workflow_state), ("thread_id", thread_id)])
          (FileStore._load_pending_workflows file)))) = _
  rw [roundtrip_entries _ hup, lookup_pyUpsert]

/-- Witness for C2: a fresh file, session "C:T", a JSON-native state. -/
theorem C2_witness :
    (PyVal.pydict [("email", .pystr "lead@example.com"), ("email_sent", .pybool false)]).jsonNative
        = true
    ∧ (PyVal.pystr "tid-1").jsonNative = true
    ∧ FileStore.get_pending_workflow
        (FileStore.register_pending_workflow none "C" "T"
          (PyVal.pydict [("email", .pystr "lead@example.com"), ("email_sent", .pybool false)])
          (.pystr "tid-1"))
        "C" "T"
      = some (.pydict
          [("state", .pydict [("email", .pystr "lead@example.com"), ("email_sent", .pybool false)])
          , ("thread_id", .pystr "tid-1")]) := by
  have h₁ : (PyVal.pydict
      [("email", .pystr "lead@example.com"), ("email_sent", .pybool false)]).jsonNative = true := by
    simp [PyVal.jsonNative, PyVal.jsonNativeEntries]
  have h₂ : (PyVal.pystr "tid-1").jsonNative = true := by
    simp [PyVal.jsonNative]
  exact ⟨h₁, h₂, C2_suspend_resume_roundtrip none "C" "T" _ _ h₁ h₂⟩

theorem superstep_ok {g : GraphDef} {o : Oracle} {rs rs2 : RunState}
    (h : superstep g o rs = .ok rs2) :
    rs2.state = (rs.wave.map (fun n => nodeFn g n o rs.state)).foldl applyUpdate rs.state
    ∧ rs2.trace = rs.trace ++ rs.wave.map (fun n => (n, rs.state)) := by
  simp only [superstep] at h
  split at h
  · cases h
  · cases h
    exact ⟨rfl, rfl⟩

theorem runLoop_trace_extends (g : GraphDef) (o : Oracle) :
    ∀ (fuel : Nat) (rs : RunState),
      ∃ t, ((runLoop g o fuel rs).toRunState).trace = rs.trace ++ t
  | 0, rs => ⟨[], by simp [runLoop, RunOutcome.toRunState]⟩
  | fuel + 1, rs => by
    simp only [runLoop]
    split
    · exact ⟨[], by simp [RunOutcome.toRunState]⟩
    · split
      · exact ⟨[], by simp [RunOutcome.toRunState]⟩
      · next rs2 heq =>
        split
        · exact ⟨rs.wave.map (fun n => (n, rs.state)), by
            simp [RunOutcome.toRunState, (superstep_ok heq).2]⟩
        · obtain ⟨t, ht⟩ := runLoop_trace_extends g o fuel rs2
          refine ⟨rs.wave.map (fun n => (n, rs.state)) ++ t, ?_⟩
          rw [ht, (superstep_ok heq).2, List.append_assoc]

theorem applyUpdate_research_isSome {st : WorkflowState} {u : StateUpdate} {k : String}
    (h : (st.research k).isSome = true) :
    (((applyUpdate st u).research) k).isSome = true := by
  simp only [applyUpdate]
  cases hu : u.research with
  | none => simpa [merge_research_results] using h
  | some d =>
    simp only [merge_some_some, Dict.updateWith]
    cases hd : d k
    · simpa using h
    · simp

theorem foldl_applyUpdate_research_isSome {k : String} :
    ∀ (us : List StateUpdate) (st : WorkflowState),
      (st.research k).isSome = true →
      (((us.foldl applyUpdate st).research) k).isSome = true
  | [], _, h => h
  | u :: us, st, h =>
    foldl_applyUpdate_research_isSome us (applyUpdate st u) (applyUpdate_research_isSome h)

theorem runLoop_research_persists (g : GraphDef) (o : Oracle) (k : String) :
    ∀ (fuel : Nat) (rs : RunState), (rs.state.research k).isSome = true →
      ∀ e ∈ ((runLoop g o fuel rs).toRunState).trace,
        e ∈ rs.trace ∨ (e.2.research k).isSome = true
  | 0, rs, _, e, he => .inl (by simpa [runLoop, RunOutcome.toRunState] using he)
  | fuel + 1, rs, hk, e, he => by
    simp only [runLoop] at he
    split at he
    · exact .inl (by simpa [RunOutcome.toRunState] using he)
    · split at he
      · exact .inl (by simpa [RunOutcome.toRunState] using he)
      · next rs2 heq =>
        have hsplit := superstep_ok heq
        have hk2 : (rs2.state.research k).isSome = true := by
          rw [hsplit.1]
          exact foldl_applyUpdate_research_isSome _ _ hk
        split at he
        · have he2 : e ∈ rs.trace ++ rs.wave.map (fun n => (n, rs.state)) := by
            rw [← hsplit.2]
            simpa [RunOutcome.toRunState] using he
          rcases List.mem_append.mp he2 with h1 | h1
          · exact .inl h1
          · obtain ⟨n, _, rfl⟩ := List.mem_map.mp h1
            exact .inr hk
        · rcases runLoop_research_persists g o k fuel rs2 hk2 e he with h1 | h1
          · rw [hsplit.2] at h1
            rcases List.mem_append.mp h1 with h2 | h2
            · exact .inl h2
            · obtain ⟨n, _, rfl⟩ := List.mem_map.mp h2
              exact .inr hk
          · exact .inr h1

theorem runAndCheckpoint_trace (g : GraphDef) (o : Oracle) (ck : Checkpoints)
    (thread_id : String) (fuel : Nat) (rs : RunState) :
    (runAndCheckpoint g o ck thread_id fuel rs).1.trace
      = ((runLoop g o fuel rs).toRunState).trace := by
  cases h : runLoop g o fuel rs <;>
    simp [runAndCheckpoint, h, InvokeOutcome.trace, RunOutcome.toRunState]

theorem startWave_eq :
    startWave build_workflow_graph = ["research_salesforce", "research_marketo", "research_web"] := by
  rfl

theorem runLoop_request_approval (o : Oracle) (st : WorkflowState) (ex : List String)
    (tr : List (String × WorkflowState)) (fuel : Nat) :
    runLoop build_workflow_graph o (fuel + 1) ⟨st, ["request_approval"], ex, tr⟩ =
      .suspended ⟨applyUpdate st (request_human_approval_node o st), ["process_human_response"],
        ex ++ ["request_approval"], tr ++ [("request_approval", st)]⟩ := by
  have hstep : superstep build_workflow_graph o ⟨st, ["request_approval"], ex, tr⟩ =
      .ok ⟨applyUpdate st (request_human_approval_node o st), ["process_human_response"],
        ex ++ ["request_approval"], tr ++ [("request_approval", st)]⟩ := by
    simp [superstep, nodeFn, waveSuccessors, nodeSuccessors, routeTarget, build_workflow_graph,
      dedupNames, List.lookup, START, END]
  simp only [runLoop]
  rw [if_neg (by simp [END]), hstep]
  simp [build_workflow_graph]

theorem runLoop_research_wave (o : Oracle) (st0 : WorkflowState) (ex : List String)
    (tr : List (String × WorkflowState)) (fuel : Nat) :
    runLoop build_workflow_graph o (fuel + 1)
        ⟨st0, ["research_salesforce", "research_marketo", "research_web"], ex, tr⟩
      = runLoop build_workflow_graph o fuel
          ⟨researchMergedState o st0, ["analyze_inquiry"],
            ex ++ ["research_salesforce", "research_marketo", "research_web"],
            tr ++ [("research_salesforce", st0), ("research_marketo", st0), ("research_web", st0)]⟩ := by
  have hstep : superstep build_workflow_graph o
      ⟨st0, ["research_salesforce", "research_marketo", "research_web"], ex, tr⟩ =
      .ok ⟨researchMergedState o st0, ["analyze_inquiry"],
        ex ++ ["research_salesforce", "research_marketo", "research_web"],
        tr ++ [("research_salesforce", st0), ("research_marketo", st0), ("research_web", st0)]⟩ := by
    simp [superstep, nodeFn, waveSuccessors, nodeSuccessors, routeTarget, build_workflow_graph,
      dedupNames, List.lookup, START, END, researchMergedState]
  simp only [runLoop]
  rw [if_neg (by simp [END]), hstep]
  simp [build_workflow_graph]

theorem runLoop_analyze_wave (o : Oracle) (st1 : WorkflowState) (ex : List String)
    (tr : List (String × WorkflowState)) (fuel : Nat) :
    runLoop build_workflow_graph o (fuel + 1) ⟨st1, ["analyze_inquiry"], ex, tr⟩
      = runLoop build_workflow_graph o fuel
          ⟨applyUpdate st1 (analyze_inquiry_node o st1), ["qualify_lead"],
            ex ++ ["analyze_inquiry"], tr ++ [("analyze_inquiry", st1)]⟩ := by
  have hstep : superstep build_workflow_graph o ⟨st1, ["analyze_inquiry"], ex, tr⟩ =
      .ok ⟨applyUpdate st1 (analyze_inquiry_node o st1), ["qualify_lead"],
        ex ++ ["analyze_inquiry"], tr ++ [("analyze_inquiry", st1)]⟩ := by
    simp [superstep, nodeFn, waveSuccessors, nodeSuccessors, routeTarget, build_workflow_graph,
      dedupNames, List.lookup, START, END]
  simp only [runLoop]
  rw [if_neg (by simp [END]), hstep]
  simp [build_workflow_graph]

theorem researchMergedState_keys (o : Oracle) (st0 : WorkflowState) :
    ((researchMergedState o st0).research "salesforce").isSome = true
    ∧ ((researchMergedState o st0).research "marketo").isSome = true
    ∧ ((researchMergedState o st0).research "web").isSome = true := by
  refine ⟨?_, ?_, ?_⟩ <;>
    simp [researchMergedState, applyUpdate, merge_some_some, Dict.updateWith,
      research_salesforce_node, research_marketo_node, research_web_node,
      Dict.single, Dict.insert, Dict.empty]

theorem Dict.insert_self {K V : Type} [DecidableEq K] (k : K) (v : V) (d : Dict K V) :
    Dict.insert k v d k = some v := by
  simp [Dict.insert]

theorem routeTarget_total (c : CondEdge) (hc : c ∈ build_workflow_graph.conditional)
    (st : WorkflowState) :
    ∃ t, c.mapping.lookup (c.router st) = some t ∧ routeTarget c st = .ok t := by
  simp only [build_workflow_graph, List.mem_cons, List.not_mem_nil, or_false] at hc
  rcases hc with rfl | rfl | rfl | rfl
  · by_cases h : st.qualification.status.getD "Unknown" = "Disqualified" <;>
      simp [route_after_qualification, routeTarget, h, List.lookup]
  · by_cases h : st.email_approved_by_ai = false <;>
      simp [route_after_email_review, routeTarget, h, List.lookup]
  · by_cases h : st.requires_human_approval <;>
      simp [route_check_approval, routeTarget, h, List.lookup]
  · by_cases h1 : st.human_approval.status.getD "pending" = "approved"
    · simp [route_after_human_response, routeTarget, h1, List.lookup]
    · by_cases h2 : st.human_approval.status.getD "pending" = "changes_requested"
      · simp [route_after_human_response, routeTarget, h1, h2, List.lookup]
      · by_cases h3 : st.human_approval.status.getD "pending" = "rejected" <;>
          simp [route_after_human_response, routeTarget, h1, h2, h3, List.lookup]

theorem superstep_phr (o : Oracle) (st2 : WorkflowState) (ex2 : List String)
    (tr2 : List (String × WorkflowState)) :
    ∃ rs2, superstep build_workflow_graph o ⟨st2, ["process_human_response"], ex2, tr2⟩ = .ok rs2 := by
  have hmem : CondEdge.mk "process_human_response" route_after_human_response
      [("generate_email", "generate_email"), ("send_email", "send_email"),
        ("skip_email", "skip_email")] ∈ build_workflow_graph.conditional := by
    simp [build_workflow_graph]
  obtain ⟨t, _, ht⟩ := routeTarget_total _ hmem
    (applyUpdate st2 (process_human_response_node o st2))
  refine ⟨⟨applyUpdate st2 (process_human_response_node o st2), [t],
    ex2 ++ ["process_human_response"], tr2 ++ [("process_human_response", st2)]⟩, ?_⟩
  simp [superstep, waveSuccessors, nodeSuccessors, nodeFn, build_workflow_graph, List.lookup,
    ht, dedupNames, START, END]

theorem runLoop_phr_head (o : Oracle) (st2 : WorkflowState) (ex2 : List String) (fuel2 : Nat) :
    ((runLoop build_workflow_graph o (fuel2 + 1)
        ⟨st2, ["process_human_response"], ex2, []⟩).toRunState).trace.head?
      = some ("process_human_response", st2) := by
  simp only [runLoop]
  rw [if_neg (by simp [END])]
  split
  · next e heq =>
    obtain ⟨rs2, hok⟩ := superstep_phr o st2 ex2 []
    rw [heq] at hok
    cases hok
  · next rs2 heq =>
    rw [if_neg (by simp [build_workflow_graph])]
    obtain ⟨t, ht⟩ := runLoop_trace_extends build_workflow_graph o fuel2 rs2
    rw [ht, (superstep_ok heq).2]
    simp

/-- C3: when a run reaches the interrupt-flagged node `request_approval`,
the scheduler runs that node, persists a checkpoint keyed by the session's
thread id positioned at the node after the interrupt, and yields control
(outcome suspended) instead of continuing to the successor; invoking the
compiled graph with input `None` under the same thread id then continues
execution at `process_human_response`, on the checkpointed state.
The scheduler itself is the spec-modelled wave engine over the graph of
graph.py. -/
theorem C3_interrupt_suspends_then_resume_continues (o : Oracle) (thread_id : String)
    (ck : Checkpoints) (st : WorkflowState) (ex : List String)
    (tr : List (String × WorkflowState)) (fuel fuel2 : Nat) :
    (runAndCheckpoint build_workflow_graph o ck thread_id (fuel + 1)
        ⟨st, ["request_approval"], ex, tr⟩).1
      = .suspended ⟨applyUpdate st (request_human_approval_node o st),
          ["process_human_response"], ex ++ ["request_approval"],
          tr ++ [("request_approval", st)]⟩
    ∧ (runAndCheckpoint build_workflow_graph o ck thread_id (fuel + 1)
        ⟨st, ["request_approval"], ex, tr⟩).2 thread_id
      = some ⟨applyUpdate st (request_human_approval_node o st),
          ["process_human_response"], ex ++ ["request_approval"]⟩
    ∧ (graphInvoke build_workflow_graph o
        (runAndCheckpoint build_workflow_graph o ck thread_id (fuel + 1)
          ⟨st, ["request_approval"], ex, tr⟩).2
        thread_id none (fuel2 + 1)).1.trace.head?
      = some ("process_human_response", applyUpdate st (request_human_approval_node o st)) := by
  have hrun := runLoop_request_approval o st ex tr fuel
  have h1 : (runAndCheckpoint build_workflow_graph o ck thread_id (fuel + 1)
      ⟨st, ["request_approval"], ex, tr⟩).1
      = .suspended ⟨applyUpdate st (request_human_approval_node o st),
          ["process_human_response"], ex ++ ["request_approval"],
          tr ++ [("request_approval", st)]⟩ := by
    simp [runAndCheckpoint, hrun]
  have h2 : (runAndCheckpoint build_workflow_graph o ck thread_id (fuel + 1)
      ⟨st, ["request_approval"], ex, tr⟩).2
      = Dict.insert thread_id ⟨applyUpdate st (request_human_approval_node o st),
          ["process_human_response"], ex ++ ["request_approval"]⟩ ck := by
    simp [runAndCheckpoint, hrun]
  refine ⟨h1, ?_, ?_⟩
  · rw [h2, Dict.insert_self]
  · rw [h2]
    have hload : (Dict.insert thread_id
        (⟨applyUpdate st (request_human_approval_node o st),
          ["process_human_response"], ex ++ ["request_approval"]⟩ : Checkpoint) ck) thread_id
        = some ⟨applyUpdate st (request_human_approval_node o st),
            ["process_human_response"], ex ++ ["request_approval"]⟩ := Dict.insert_self _ _ _
    simp only [graphInvoke, hload]
    rw [runAndCheckpoint_trace]
    exact runLoop_phr_head o _ _ fuel2

/-- C4: under the spec-modelled wave scheduler on the graph of graph.py,
the fan-in node `analyze_inquiry` (whose direct predecessors are the three
research nodes) runs only after all three predecessors produced their
partial updates and those updates were merged: the run's trace begins with
the three research invocations on the entry snapshot followed by
`analyze_inquiry` on the merged state, and every `analyze_inquiry`
invocation observes all three research contributions in its input state. -/
theorem C4_join_barrier (o : Oracle) (payload : LeadInfo) (now : String)
    (ck : Checkpoints) (thread_id : String) (fuel : Nat) :
    (graphInvoke build_workflow_graph o ck thread_id
        (some (create_initial_state payload now)) (fuel + 2)).1.trace.take 4
      = [("research_salesforce", create_initial_state payload now),
         ("research_marketo", create_initial_state payload now),
         ("research_web", create_initial_state payload now),
         ("analyze_inquiry", researchMergedState o (create_initial_state payload now))]
    ∧ ∀ e ∈ (graphInvoke build_workflow_graph o ck thread_id
          (some (create_initial_state payload now)) (fuel + 2)).1.trace,
        e.1 = "analyze_inquiry" →
          (e.2.research "salesforce").isSome = true
          ∧ (e.2.research "marketo").isSome = true
          ∧ (e.2.research "web").isSome = true := by
  have hadd : fuel + 2 = fuel + 1 + 1 := rfl
  have htr : (graphInvoke build_workflow_graph o ck thread_id
      (some (create_initial_state payload now)) (fuel + 2)).1.trace
      = ((runLoop build_workflow_graph o (fuel + 2)
          ⟨create_initial_state payload now, startWave build_workflow_graph,
            [START], []⟩).toRunState).trace := by
    simp only [graphInvoke]
    rw [runAndCheckpoint_trace]
  rw [startWave_eq, hadd, runLoop_research_wave, runLoop_analyze_wave] at htr
  simp only [List.nil_append, List.cons_append] at htr
  obtain ⟨t, ht⟩ := runLoop_trace_extends build_workflow_graph o fuel
    ⟨applyUpdate (researchMergedState o (create_initial_state payload now))
        (analyze_inquiry_node o (researchMergedState o (create_initial_state payload now))),
      ["qualify_lead"],
      [START, "research_salesforce", "research_marketo", "research_web", "analyze_inquiry"],
      [("research_salesforce", create_initial_state payload now),
       ("research_marketo", create_initial_state payload now),
       ("research_web", create_initial_state payload now),
       ("analyze_inquiry", researchMergedState o (create_initial_state payload now))]⟩
  rw [ht] at htr
  have hkeys := researchMergedState_keys o (create_initial_state payload now)
  constructor
  · rw [htr]
    rw [List.take_left' (by simp)]
  · intro e he h1
    rw [htr] at he
    have hstate : ((applyUpdate (researchMergedState o (create_initial_state payload now))
        (analyze_inquiry_node o (researchMergedState o
          (create_initial_state payload now)))).research "salesforce").isSome = true
        ∧ ((applyUpdate (researchMergedState o (create_initial_state payload now))
          (analyze_inquiry_node o (researchMergedState o
            (create_initial_state payload now)))).research "marketo").isSome = true
        ∧ ((applyUpdate (researchMergedState o (create_initial_state payload now))
          (analyze_inquiry_node o (researchMergedState o
            (create_initial_state payload now)))).research "web").isSome = true :=
      ⟨applyUpdate_research_isSome hkeys.1, applyUpdate_research_isSome hkeys.2.1,
        applyUpdate_research_isSome hkeys.2.2⟩
    rcases List.mem_append.mp he with hm | hrest
    · simp only [List.mem_cons, List.not_mem_nil, or_false] at hm
      rcases hm with rfl | rfl | rfl | rfl
      · simp at h1
      · simp at h1
      · simp at h1
      · exact hkeys
    · have he2 : e ∈ ((runLoop build_workflow_graph o fuel
          ⟨applyUpdate (researchMergedState o (create_initial_state payload now))
              (analyze_inquiry_node o (researchMergedState o
                (create_initial_state payload now))),
            ["qualify_lead"],
            [START, "research_salesforce", "research_marketo", "research_web", "analyze_inquiry"],
            [("research_salesforce", create_initial_state payload now),
             ("research_marketo", create_initial_state payload now),
             ("research_web", create_initial_state payload now),
             ("analyze_inquiry", researchMergedState o (create_initial_state payload now))]⟩
          ).toRunState).trace := by
        rw [ht]
        exact List.mem_append.mpr (.inr hrest)
      refine ⟨?_, ?_, ?_⟩
      · rcases runLoop_research_persists build_workflow_graph o "salesforce" fuel _
          hstate.1 e he2 with hm | hs
        · simp only [List.mem_cons, List.not_mem_nil, or_false] at hm
          rcases hm with rfl | rfl | rfl | rfl
          · simp at h1
          · simp at h1
          · simp at h1
          · exact hkeys.1
        · exact hs
      · rcases runLoop_research_persists build_workflow_graph o "marketo" fuel _
          hstate.2.1 e he2 with hm | hs
        · simp only [List.mem_cons, List.not_mem_nil, or_false] at hm
          rcases hm with rfl | rfl | rfl | rfl
          · simp at h1
          · simp at h1
          · simp at h1
          · exact hkeys.2.1
        · exact hs
      · rcases runLoop_research_persists build_workflow_graph o "web" fuel _
          hstate.2.2 e he2 with hm | hs
        · simp only [List.mem_cons, List.not_mem_nil, or_false] at hm
          rcases hm with rfl | rfl | rfl | rfl
          · simp at h1
          · simp at h1
          · simp at h1
          · exact hkeys.2.2
        · exact hs

/-- Witness for C4: a concrete run from an empty payload; the fan-in entry
of the trace carries all three research keys. -/
theorem C4_witness :
    (graphInvoke build_workflow_graph stubOracle Dict.empty "tid"
        (some (create_initial_state {} "ts")) 2).1.trace.take 4
      = [("research_salesforce", create_initial_state {} "ts"),
         ("research_marketo", create_initial_state {} "ts"),
         ("research_web", create_initial_state {} "ts"),
         ("analyze_inquiry", researchMergedState stubOracle (create_initial_state {} "ts"))]
    ∧ ((researchMergedState stubOracle (create_initial_state {} "ts")).research
          "salesforce").isSome = true
    ∧ ((researchMergedState stubOracle (create_initial_state {} "ts")).research
          "marketo").isSome = true
    ∧ ((researchMergedState stubOracle (create_initial_state {} "ts")).research
          "web").isSome = true := by
  have h := C4_join_barrier stubOracle {} "ts" Dict.empty "tid" 0
  refine ⟨h.1, ?_⟩
  have hmem : ("analyze_inquiry", researchMergedState stubOracle (create_initial_state {} "ts"))
      ∈ (graphInvoke build_workflow_graph stubOracle Dict.empty "tid"
          (some (create_initial_state {} "ts")) (0 + 2)).1.trace := by
    apply List.take_subset 4
    rw [h.1]
    simp
  exact h.2 _ hmem rfl

/-- C5: once review_email_node has run and the review count has reached
the guard of 3, the draft is auto-approved regardless of the AI review
result, and route_after_email_review routes to `check_approval` instead of
looping back to `generate_email` — the loop never runs a 4th time. -/
theorem C5_review_loop_guard (o : Oracle) (st : WorkflowState)
    (h : 3 ≤ st.email_review_count + 1) :
    (review_email_node o st).email_approved_by_ai = some true
    ∧ (review_email_node o st).email_review_count = some (st.email_review_count + 1)
    ∧ (applyUpdate st (review_email_node o st)).email_approved_by_ai = true
    ∧ route_after_email_review (applyUpdate st (review_email_node o st)) = "check_approval" := by
  have hd : decide (3 ≤ st.email_review_count + 1) = true := decide_eq_true h
  have hnode : review_email_node o st =
      { email_review_count := some (st.email_review_count + 1)
        email_approved_by_ai := some true } := by
    simp [review_email_node, hd]
    exact fun _ => by omega
  refine ⟨by rw [hnode], by rw [hnode], ?_, ?_⟩
  · rw [hnode]
    simp [applyUpdate]
  · rw [hnode]
    simp [route_after_email_review, applyUpdate]

/-- Witness for C5: a state whose review count is already 2, so the review
that just ran is the 3rd. -/
theorem C5_witness :
    3 ≤ ({ email_review_count := 2 } : WorkflowState).email_review_count + 1
    ∧ ((review_email_node stubOracle { email_review_count := 2 }).email_approved_by_ai
          = some true
      ∧ (review_email_node stubOracle { email_review_count := 2 }).email_review_count
          = some (({ email_review_count := 2 } : WorkflowState).email_review_count + 1)
      ∧ (applyUpdate { email_review_count := 2 }
          (review_email_node stubOracle { email_review_count := 2 })).email_approved_by_ai = true
      ∧ route_after_email_review (applyUpdate { email_review_count := 2 }
          (review_email_node stubOracle { email_review_count := 2 })) = "check_approval") := by
  have h3 : 3 ≤ ({ email_review_count := 2 } : WorkflowState).email_review_count + 1 := by
    decide
  exact ⟨h3, C5_review_loop_guard stubOracle _ h3⟩

/-- C6: every routing function is a pure function of the state and, for
every input state, returns one of the labels declared in its
conditional-edge mapping; resolving an edge therefore never hits the
fatal undeclared-label error, which would abort the run rather than
default. -/
theorem C6_routers_total (st : WorkflowState) :
    route_after_qualification st ∈ (["skip_email", "generate_email"] : List String)
    ∧ route_after_email_review st ∈ (["generate_email", "check_approval"] : List String)
    ∧ route_check_approval st ∈ (["request_approval", "send_email"] : List String)
    ∧ route_after_human_response st ∈ (["generate_email", "send_email", "skip_email"] : List String)
    ∧ ∀ c ∈ build_workflow_graph.conditional,
        ∃ t, c.mapping.lookup (c.router st) = some t ∧ routeTarget c st = .ok t := by
  refine ⟨?_, ?_, ?_, ?_, fun c hc => routeTarget_total c hc st⟩
  · unfold route_after_qualification
    split <;> simp
  · unfold route_after_email_review
    split <;> simp
  · unfold route_check_approval
    split <;> simp
  · by_cases h1 : st.human_approval.status.getD "pending" = "approved"
    · simp [route_after_human_response, h1]
    · by_cases h2 : st.human_approval.status.getD "pending" = "changes_requested"
      · simp [route_after_human_response, h1, h2]
      · by_cases h3 : st.human_approval.status.getD "pending" = "rejected" <;>
          simp [route_after_human_response, h1, h2, h3]

/-- Witness for C6: the qualification router on the initial state returns a
declared label and its edge resolves without a routing error. -/
theorem C6_witness :
    route_after_qualification sampleState ∈ (["skip_email", "generate_email"] : List String)
    ∧ ∃ t, (CondEdge.mk "qualify_lead" route_after_qualification
          [("skip_email", "skip_email"), ("generate_email", "generate_email")]).mapping.lookup
            ((CondEdge.mk "qualify_lead" route_after_qualification
              [("skip_email", "skip_email"), ("generate_email", "generate_email")]).router
              sampleState)
          = some t
        ∧ routeTarget (CondEdge.mk "qualify_lead" route_after_qualification
            [("skip_email", "skip_email"), ("generate_email", "generate_email")]) sampleState
          = .ok t := by
  have h := C6_routers_total sampleState
  exact ⟨h.1, h.2.2.2.2 _ (by simp [build_workflow_graph])⟩

theorem human_response_404 (resumeGraph : Option String → StateUpdate → Except String WorkflowState)
    (store : Dict String PendingEntry) (channel thread_ts human_message reviewer : String)
    (h : get_pending_workflow store channel thread_ts = none) :
    human_response resumeGraph store channel thread_ts human_message reviewer
      = (HttpResponse.mk 404 "error" (some "No pending workflow found for this thread"),
         store, false) := by
  simp [human_response, h]

/-- C7: resuming a session with no matching pending-workflows entry is a
"no pending workflow found" 404 error that does not invoke the graph and
leaves the store untouched; and a resume that completes removes the entry,
so a second resume of the same token is that same 404 without repeating
any side effect. -/
theorem C7_resume_without_checkpoint_is_error
    (resumeGraph : Option String → StateUpdate → Except String WorkflowState)
    (store : Dict String PendingEntry) (channel thread_ts human_message reviewer : String) :
    (get_pending_workflow store channel thread_ts = none →
      human_response resumeGraph store channel thread_ts human_message reviewer
        = (HttpResponse.mk 404 "error" (some "No pending workflow found for this thread"),
           store, false))
    ∧ (∀ (p : PendingEntry) (final : WorkflowState),
        get_pending_workflow store channel thread_ts = some p →
        resumeGraph p.thread_id (resumeUpdate p.state human_message reviewer) = .ok final →
        final.workflow_status ≠ "waiting_for_human" →
        get_pending_workflow
            (human_response resumeGraph store channel thread_ts human_message reviewer).2.1
            channel thread_ts = none
        ∧ ∀ msg2 rev2 : String,
            human_response resumeGraph
                (human_response resumeGraph store channel thread_ts human_message reviewer).2.1
                channel thread_ts msg2 rev2
              = (HttpResponse.mk 404 "error" (some "No pending workflow found for this thread"),
                 (human_response resumeGraph store channel thread_ts human_message reviewer).2.1,
                 false)) := by
  constructor
  · exact human_response_404 resumeGraph store channel thread_ts human_message reviewer
  · intro p final hp hres hws
    have hrun : human_response resumeGraph store channel thread_ts human_message reviewer
        = ({ code := 200, status := "completed" },
           remove_pending_workflow store channel thread_ts, true) := by
      simp [human_response, hp, hres, hws]
    have hget : get_pending_workflow
        (human_response resumeGraph store channel thread_ts human_message reviewer).2.1
        channel thread_ts = none := by
      rw [hrun]
      simp [get_pending_workflow, remove_pending_workflow, Dict.erase]
    exact ⟨hget, fun msg2 rev2 => human_response_404 _ _ _ _ msg2 rev2 hget⟩

/-- Witness for C7: an empty store answers 404; after a completed resume of
the registered "C:T" session, the entry is gone and a second resume is the
same 404 with no graph invocation. -/
theorem C7_witness :
    human_response (fun _ _ => .ok completedState) Dict.empty "C" "T" "go" "U1"
      = (HttpResponse.mk 404 "error" (some "No pending workflow found for this thread"),
         Dict.empty, false)
    ∧ get_pending_workflow
        (human_response (fun _ _ => .ok completedState) samplePendingStore "C" "T" "go" "U1").2.1
        "C" "T" = none
    ∧ human_response (fun _ _ => .ok completedState)
        (human_response (fun _ _ => .ok completedState) samplePendingStore "C" "T" "go" "U1").2.1
        "C" "T" "again" "U2"
      = (HttpResponse.mk 404 "error" (some "No pending workflow found for this thread"),
         (human_response (fun _ _ => .ok completedState) samplePendingStore "C" "T" "go" "U1").2.1,
         false) := by
  have h1 := C7_resume_without_checkpoint_is_error (fun _ _ => .ok completedState)
    Dict.empty "C" "T" "go" "U1"
  have h2 := C7_resume_without_checkpoint_is_error (fun _ _ => .ok completedState)
    samplePendingStore "C" "T" "go" "U1"
  have hp : get_pending_workflow samplePendingStore "C" "T"
      = some ⟨sampleState, some "tid-1"⟩ := by
    simp [samplePendingStore, register_pending_workflow, get_pending_workflow, Dict.insert]
  obtain ⟨hget, hsecond⟩ := h2.2 ⟨sampleState, some "tid-1"⟩ completedState hp rfl (by decide)
  exact ⟨h1.1 rfl, hget, hsecond "again" "U2"⟩

/-- Counterexample to C8: with each advisory-locked load and save atomic
but no lock spanning the whole resume sequence, there is an interleaving
of two /human-response processes for the same session "C:T" in which both
find the pending entry and both resume the run — mutual exclusion does not
hold for all schedules. -/
theorem C8_counterexample :
    ¬ ∀ sched : List Bool,
        ¬ ((raceRun ("C" ++ ":" ++ "T") sched { store := samplePendingStore }).p1.invoked = true
          ∧ (raceRun ("C" ++ ":" ++ "T") sched { store := samplePendingStore }).p2.invoked
              = true) := by
  intro hmutex
  exact hmutex [false, true, false, true, false, true] ⟨rfl, rfl⟩

/-- C8 amended: each individual load and save of the pending-workflows
file is atomic under its advisory lock, and strictly serialized resumes
are exclusive (the second caller finds no entry and does not invoke), but
concurrent resume calls for the same session are not mutually exclusive:
in the interleaving where both processes load before either removes, both
observe the pending entry and both resume the same suspended run,
double-sending its side effects — the check-and-act race the design notes
of the specification acknowledge. -/
theorem C8_amended_no_mutual_exclusion :
    ((raceRun ("C" ++ ":" ++ "T") [false, true, false, true, false, true]
        { store := samplePendingStore }).p1.invoked = true
      ∧ (raceRun ("C" ++ ":" ++ "T") [false, true, false, true, false, true]
          { store := samplePendingStore }).p2.invoked = true)
    ∧ (raceRun ("C" ++ ":" ++ "T") [false, true, false, true, false, true]
        { store := samplePendingStore }).store ("C" ++ ":" ++ "T") = none
    ∧ (raceRun ("C" ++ ":" ++ "T") [false, false, false, true, true, true]
        { store := samplePendingStore }).p1.invoked = true
    ∧ (raceRun ("C" ++ ":" ++ "T") [false, false, false, true, true, true]
        { store := samplePendingStore }).p2.invoked = false := by
  exact ⟨⟨rfl, rfl⟩, by simp [raceRun, raceStep, resumeStep, samplePendingStore,
    register_pending_workflow, Dict.insert, Dict.erase, get_pending_workflow], rfl, rfl⟩

/-- Counterexample to C9: when the graph invocation raises, both handlers
surface the JSON field `status: "error"` (with HTTP 500), not
`status: "failed"` as the claim states. -/
theorem C9_counterexample :
    (contact_sales (fun _ => .error "boom") Dict.empty {} "ts" "tid").1.status = "error"
    ∧ (contact_sales (fun _ => .error "boom") Dict.empty {} "ts" "tid").1.status ≠ "failed"
    ∧ (human_response (fun _ _ => .error "boom") samplePendingStore "C" "T" "go" "U").1.status
        = "error"
    ∧ (human_response (fun _ _ => .error "boom") samplePendingStore "C" "T" "go" "U").1.status
        ≠ "failed" := by
  exact ⟨rfl, by decide, rfl, by decide⟩

/-- C9 amended: when an uncaught exception occurs while handling start
(/contact-sales) or resume (/human-response), the interface surfaces
status "error" (HTTP 500) together with the error detail, and the pending
store is left untouched — partial progress already persisted (errors
appended to the checkpointed state, the pending entry) is preserved for
audit rather than discarded. -/
theorem C9_amended_error_surfaced
    (invokeStart : WorkflowState → Except String WorkflowState)
    (resumeGraph : Option String → StateUpdate → Except String WorkflowState)
    (store store2 : Dict String PendingEntry) (payload : LeadInfo)
    (now thread_id channel thread_ts human_message reviewer e e2 : String) (p : PendingEntry)
    (hstart : invokeStart (create_initial_state payload now) = .error e)
    (hp : get_pending_workflow store2 channel thread_ts = some p)
    (hres : resumeGraph p.thread_id (resumeUpdate p.state human_message reviewer) = .error e2) :
    contact_sales invokeStart store payload now thread_id
      = (HttpResponse.mk 500 "error" (some e), store, true)
    ∧ human_response resumeGraph store2 channel thread_ts human_message reviewer
      = (HttpResponse.mk 500 "error" (some e2), store2, true) := by
  constructor
  · simp [contact_sales, hstart]
  · simp [human_response, hp, hres]

/-- Witness for C9's amended claim: a start call and a resume call whose
graph invocation raises "boom". -/
theorem C9_witness :
    contact_sales (fun _ => .error "boom") Dict.empty {} "ts" "tid"
      = (HttpResponse.mk 500 "error" (some "boom"), Dict.empty, true)
    ∧ human_response (fun _ _ => .error "boom") samplePendingStore "C" "T" "go" "U"
      = (HttpResponse.mk 500 "error" (some "boom"), samplePendingStore, true) := by
  have hp : get_pending_workflow samplePendingStore "C" "T"
      = some ⟨sampleState, some "tid-1"⟩ := by
    simp [samplePendingStore, register_pending_workflow, get_pending_workflow, Dict.insert]
  exact C9_amended_error_surfaced (fun _ => .error "boom") (fun _ _ => .error "boom")
    Dict.empty samplePendingStore {} "ts" "tid" "C" "T" "go" "U" "boom" "boom"
    ⟨sampleState, some "tid-1"⟩ rfl hp rfl

/-- C10: a resume whose `human_approval` carries no human message keeps the
pre-existing approval status, defaulting to "approved" when none is set;
and every approval status outside the three recognized ones routes to
`send_email` — an empty or unclassifiable human response results in the
email being sent. -/
theorem C10_empty_response_defaults_to_send (o : Oracle) (st : WorkflowState)
    (hmsg : st.human_approval.human_message.getD "" = "") :
    (process_human_response_node o st).human_approval
        = some { st.human_approval with
            status := some (st.human_approval.status.getD "approved") }
    ∧ (st.human_approval.status = none →
        (process_human_response_node o st).human_approval
          = some { st.human_approval with status := some "approved" })
    ∧ (∀ s : String, s ∉ (["approved", "changes_requested", "rejected"] : List String) →
        ∀ st2 : WorkflowState, st2.human_approval.status = some s →
          route_after_human_response st2 = "send_email")
    ∧ (st.human_approval.status.getD "approved" ∉
          (["changes_requested", "rejected"] : List String) →
        route_after_human_response (applyUpdate st (process_human_response_node o st))
          = "send_email") := by
  have hnode : process_human_response_node o st
      = { human_approval := some { st.human_approval with
            status := some (st.human_approval.status.getD "approved") } } := by
    simp [process_human_response_node, hmsg]
  refine ⟨by rw [hnode], ?_, ?_, ?_⟩
  · intro hs
    rw [hnode]
    simp [hs]
  · intro s hs st2 h2
    have hst2 : st2.human_approval.status.getD "pending" = s := by
      rw [h2]
      rfl
    simp only [List.mem_cons, List.not_mem_nil, or_false, not_or] at hs
    obtain ⟨h1, h2', h3⟩ := hs
    simp [route_after_human_response, hst2, h1, h2', h3]
  · intro hne
    simp only [List.mem_cons, List.not_mem_nil, or_false, not_or] at hne
    obtain ⟨hne1, hne2⟩ := hne
    rw [hnode]
    by_cases ha : st.human_approval.status.getD "approved" = "approved"
    · simp [route_after_human_response, applyUpdate, ha]
    · simp [route_after_human_response, applyUpdate, ha, hne1, hne2]

/-- Witness for C10: the initial state (no human message, no status): the
status defaults to "approved" and the route is `send_email`. -/
theorem C10_witness :
    ({} : WorkflowState).human_approval.human_message.getD "" = ""
    ∧ (process_human_response_node stubOracle {}).human_approval
        = some { ({} : WorkflowState).human_approval with status := some "approved" }
    ∧ route_after_human_response
        (applyUpdate {} (process_human_response_node stubOracle {})) = "send_email" := by
  have h := C10_empty_response_defaults_to_send stubOracle {} rfl
  exact ⟨rfl, h.2.1 rfl, h.2.2.2 (by decide)⟩
